import Mathlib

/-!
Shallow embedding of the ipset netlink message builder and transport of
`src/util.c` (functions `_ipset_add_attr`, `_ipset_socket_init`,
`_ipset_support_timeout`, `_ipset_operate`, `ipset_add`, `ipset_del`,
lines 226-354).

Platform model: the reference platform is 64-bit little-endian Linux
(LP64, glibc), the default build target of this program.  Hence
`sizeof(struct nlmsghdr) = 16`, `sizeof(struct ipset_netlink_msg) = 4`
(two `unsigned char` plus one `__be16`), `sizeof(struct
ipset_netlink_attr) = 4` (two `unsigned short`), `sizeof(unsigned long)
= 8`, host byte order is little-endian, `AF_INET = 2`, `AF_INET6 = 10`,
`NLM_F_REQUEST = 1`, `NLM_F_REPLACE = 0x100`, `EAGAIN = EWOULDBLOCK =
11`, `EINTR = 4`.

The 256-byte message buffer is a `List Nat` of byte values; `memcpy`
into the buffer at an offset is `writeBytes`.  The C code keeps the
running total length in the `nlmsg_len` field of the header, which
lives in the first four bytes of the buffer itself; the model carries
it as a separate `MsgState` field and `sentBuffer` (the exact byte
string handed to `sendto`, which reads `netlink_head->nlmsg_len` both
for the field bytes and for the datagram length) serializes it back
into bytes 0..3.  No intermediate statement of `_ipset_operate` ever
reads those four bytes, so the two presentations agree.

External state is an `Env`: the configuration flag
`dns_conf_ipset_timeout_enable` (declared in `dns_conf.h`, outside this
file) and whether the lazy `_ipset_socket_init` ends with a usable
socket (the static `ipset_fd` is already positive, or `socket(2)`
succeeds).  The kernel's responses to `sendto` are an outcome sequence
consumed by the retry loop of lines 328-341.
-/

namespace SmartDNS

/-! ### Constants from util.c lines 15-46 and the platform headers -/

def NFNL_SUBSYS_IPSET : Nat := 6
def IPSET_ATTR_DATA : Nat := 7
def IPSET_ATTR_IP : Nat := 1
def IPSET_ATTR_IPADDR_IPV4 : Nat := 1
def IPSET_ATTR_IPADDR_IPV6 : Nat := 2
def IPSET_ATTR_PROTOCOL : Nat := 1
def IPSET_ATTR_SETNAME : Nat := 2
def IPSET_ATTR_TIMEOUT : Nat := 6
def IPSET_ADD : Nat := 9
def IPSET_DEL : Nat := 10
def IPSET_MAXNAMELEN : Nat := 32
def IPSET_PROTOCOL : Nat := 6
def IPV6_ADDR_LEN : Nat := 16
def IPV4_ADDR_LEN : Nat := 4
def NFNETLINK_V0 : Nat := 0
def NLA_F_NESTED : Nat := 2 ^ 15
def NLA_F_NET_BYTEORDER : Nat := 2 ^ 14
def NLM_F_REQUEST : Nat := 1
def NLM_F_REPLACE : Nat := 256
def AF_INET : Nat := 2
def AF_INET6 : Nat := 10
def EAGAIN : Nat := 11
def EWOULDBLOCK : Nat := EAGAIN
def EINTR : Nat := 4
def BUFF_SZ : Nat := 256

/-- `sizeof(struct nlmsghdr)`: u32 len, u16 type, u16 flags, u32 seq, u32 pid. -/
def nlmsghdr_size : Nat := 16

/-- `sizeof(struct ipset_netlink_msg)`: u8 family, u8 version, be16 res_id. -/
def ipset_netlink_msg_size : Nat := 4

/-- `sizeof(struct ipset_netlink_attr)`: u16 len, u16 type. -/
def ipset_netlink_attr_size : Nat := 4

/-- `sizeof(unsigned long)` on the LP64 reference platform. -/
def sizeof_unsigned_long : Nat := 8

/-- `NETLINK_ALIGN(len)`, util.c line 44: `(((len) + 3) & ~(3))`.
For natural numbers this is rounding `len` up to a multiple of 4. -/
def NETLINK_ALIGN (len : Nat) : Nat := (len + 3) / 4 * 4

/-! ### Byte-level primitives -/

/-- The two bytes of a `u16` stored in host (little-endian) order. -/
def u16le (v : Nat) : List Nat := [v % 256, v / 256 % 256]

/-- The four bytes of a `u32` stored in host (little-endian) order. -/
def u32le (v : Nat) : List Nat :=
  [v % 256, v / 256 % 256, v / 2 ^ 16 % 256, v / 2 ^ 24 % 256]

/-- The eight bytes of an LP64 `unsigned long` in host (little-endian) order. -/
def u64le (v : Nat) : List Nat := u32le (v % 2 ^ 32) ++ u32le (v / 2 ^ 32)

/-- glibc `htonl`: byte-swap of the argument truncated to `uint32_t`
(the little-endian host stores the result with the original value's
most significant byte first). -/
def htonl (v : Nat) : Nat :=
  (v % 256) * 2 ^ 24 + (v / 2 ^ 8 % 256) * 2 ^ 16 + (v / 2 ^ 16 % 256) * 2 ^ 8 +
    v % 2 ^ 32 / 2 ^ 24

/-- glibc `htons`: byte-swap of the argument truncated to `uint16_t`. -/
def htons (v : Nat) : Nat := (v % 256) * 2 ^ 8 + v % 2 ^ 16 / 2 ^ 8

/-- `memcpy(buffer + off, data, data.length)` on a byte-list buffer. -/
def writeBytes (buf : List Nat) (off : Nat) (data : List Nat) : List Nat :=
  buf.take off ++ data ++ buf.drop (off + data.length)

/-! ### Message state

`buf` is the 256-byte scratch buffer, `nlmsg_len` the running value of
`netlink_head->nlmsg_len`.  `attrs` is ghost instrumentation: the
buffer offset at which each attribute header was placed, in the order
the headers were written (it influences nothing the code computes). -/

structure MsgState where
  buf : List Nat
  nlmsg_len : Nat
  attrs : List Nat
deriving DecidableEq

/-- `_ipset_add_attr` (util.c lines 226-234): place an attribute header
(u16 len, u16 type) at the next aligned offset, copy `len` bytes of
payload right after it, and advance `nlmsg_len` by the aligned total. -/
def ipset_add_attr (s : MsgState) (ty : Nat) (len : Nat) (data : List Nat) : MsgState :=
  let off := NETLINK_ALIGN s.nlmsg_len
  let payload_len := (NETLINK_ALIGN ipset_netlink_attr_size + len) % 2 ^ 16
  let buf := writeBytes s.buf off (u16le payload_len ++ u16le ty)
  let buf := writeBytes buf (off + NETLINK_ALIGN ipset_netlink_attr_size) (data.take len)
  { buf := buf, nlmsg_len := s.nlmsg_len + NETLINK_ALIGN payload_len,
    attrs := s.attrs ++ [off] }

/-- Opening a nested attribute (util.c lines 311-316): reserve an
aligned attribute header, set only its `type` field (the `len` field
keeps the zero bytes of the memset), and return the header's offset. -/
def ipset_open_nested (s : MsgState) (ty : Nat) : MsgState × Nat :=
  let off := NETLINK_ALIGN s.nlmsg_len
  let buf := writeBytes s.buf (off + 2) (u16le ty)
  ({ buf := buf, nlmsg_len := s.nlmsg_len + NETLINK_ALIGN ipset_netlink_attr_size,
     attrs := s.attrs ++ [off] }, off)

/-- Closing a nested attribute (util.c lines 319 and 326): backpatch its
`len` field with `buffer + NETLINK_ALIGN(nlmsg_len) - nested[i]`. -/
def ipset_close_nested (s : MsgState) (off : Nat) : MsgState :=
  { s with buf := writeBytes s.buf off (u16le (NETLINK_ALIGN s.nlmsg_len - off)) }

/-! ### Environment and the operate function -/

structure Env where
  socket_ok : Bool
  timeout_enable : Bool
deriving DecidableEq

inductive IpsetError where
  | invalidAddress
  | socketFailed
  | nameTooLong
deriving DecidableEq

/-- `_ipset_support_timeout` (util.c lines 251-258): returns 0 exactly
when the global flag `dns_conf_ipset_timeout_enable` is set; its
`ipsetname` argument is ignored. -/
def ipset_support_timeout (env : Env) (_ipsetname : List Nat) : Int :=
  if env.timeout_enable then 0 else -1

/-- The message-building part of `_ipset_operate` (util.c lines
271-326): validation, headers, the two flat attributes, the two nested
containers, the address attribute, the optional timeout attribute, and
both backpatches.  A set name is its `List Nat` of bytes before the
terminating NUL, so `strlen(ipsetname) = name.length`; the C caller
passes `addr_len = addr.length`.  The timeout attribute's payload is
`sizeof(timeout) = 8` bytes: the `unsigned long` holding `htonl`'s
`uint32_t` result, zero-extended. -/
def ipset_operate_build (env : Env) (ipsetname : List Nat) (addr : List Nat)
    (timeout : Nat) (operate : Nat) : Except IpsetError MsgState :=
  let addr_len := addr.length
  if addr_len ≠ IPV4_ADDR_LEN ∧ addr_len ≠ IPV6_ADDR_LEN then .error .invalidAddress
  else
    let af := if addr_len = IPV4_ADDR_LEN then AF_INET else AF_INET6
    if env.socket_ok = false then .error .socketFailed
    else if IPSET_MAXNAMELEN ≤ ipsetname.length then .error .nameTooLong
    else
      let s : MsgState :=
        { buf := List.replicate BUFF_SZ 0, nlmsg_len := NETLINK_ALIGN nlmsghdr_size,
          attrs := [] }
      let s := { s with
        buf := writeBytes s.buf 4 (u16le (operate ||| NFNL_SUBSYS_IPSET <<< 8) ++
          u16le (NLM_F_REQUEST ||| NLM_F_REPLACE)) }
      let s := { s with
        buf := writeBytes s.buf s.nlmsg_len ([af % 256, NFNETLINK_V0] ++ u16le (htons 0)),
        nlmsg_len := s.nlmsg_len + NETLINK_ALIGN ipset_netlink_msg_size }
      let s := ipset_add_attr s IPSET_ATTR_PROTOCOL 1 [IPSET_PROTOCOL]
      let s := ipset_add_attr s IPSET_ATTR_SETNAME (ipsetname.length + 1) (ipsetname ++ [0])
      let r0 := ipset_open_nested s (NLA_F_NESTED ||| IPSET_ATTR_DATA)
      let s := r0.1
      let nested0 := r0.2
      let r1 := ipset_open_nested s (NLA_F_NESTED ||| IPSET_ATTR_IP)
      let s := r1.1
      let nested1 := r1.2
      let s := ipset_add_attr s
        ((if af = AF_INET then IPSET_ATTR_IPADDR_IPV4 else IPSET_ATTR_IPADDR_IPV6) |||
          NLA_F_NET_BYTEORDER) addr_len addr
      let s := ipset_close_nested s nested1
      let s :=
        if 0 < timeout ∧ ipset_support_timeout env ipsetname = 0 then
          ipset_add_attr s (IPSET_ATTR_TIMEOUT ||| NLA_F_NET_BYTEORDER)
            sizeof_unsigned_long (u64le (htonl timeout))
        else s
      let s := ipset_close_nested s nested0
      .ok s

/-- The byte string `sendto` transmits (util.c line 329): the buffer
with the final `nlmsg_len` in its first four bytes, cut to
`nlmsg_len` bytes. -/
def sentBuffer (s : MsgState) : List Nat :=
  (writeBytes s.buf 0 (u32le (s.nlmsg_len % 2 ^ 32))).take s.nlmsg_len

/-! ### The send loop (util.c lines 328-343)

One `sendto` outcome per loop iteration: either a non-negative byte
count or a failure with an `errno`.  The loop breaks on the first
success, sleeps 10000 nanoseconds (util.c line 337) before retrying
when `errno` is `EAGAIN`, `EWOULDBLOCK` or `EINTR`, and retries without
sleeping on every other `errno` (the loop body has no other exit).
`sendLoop outcomes fuel i` runs at most `fuel` iterations starting at
outcome index `i`; it returns the pair (result of the first successful
`sendto` together with the nanoseconds slept before it, when one occurs
within `fuel` iterations) and the number of `sendto` calls made. -/

inductive SendOutcome where
  | ok (rc : Nat)
  | err (errno : Nat)
deriving DecidableEq

/-- The transient-error test of util.c line 334:
`errno == EAGAIN || errno == EWOULDBLOCK || errno == EINTR`. -/
def isTransient (e : Nat) : Bool :=
  e = EAGAIN || e = EWOULDBLOCK || e = EINTR

/-- Nanoseconds of the `nanosleep` at util.c lines 335-338. -/
def retrySleepNs : Nat := 10000

def sendLoop (outcomes : Nat → SendOutcome) : Nat → Nat → Option (Nat × Nat) × Nat
  | 0, _ => (none, 0)
  | fuel + 1, i =>
    match outcomes i with
    | .ok rc => (some (rc, 0), 1)
    | .err e =>
      let r := sendLoop outcomes fuel (i + 1)
      (r.1.map fun p => (p.1, (if isTransient e then retrySleepNs else 0) + p.2), r.2 + 1)

/-- `_ipset_operate` end to end: build the message, then run the send
loop.  The second component counts the `sendto` calls performed (zero
exactly when nothing was ever handed to the socket).  A `.ok none`
means the loop was still retrying after `fuel` iterations. -/
def ipset_operate_run (env : Env) (outcomes : Nat → SendOutcome) (fuel : Nat)
    (ipsetname : List Nat) (addr : List Nat) (timeout : Nat) (operate : Nat) :
    Except IpsetError (Option (Nat × Nat)) × Nat :=
  match ipset_operate_build env ipsetname addr timeout operate with
  | .error e => (.error e, 0)
  | .ok _ =>
    let r := sendLoop outcomes fuel 0
    (.ok r.1, r.2)

/-- `ipset_add` (util.c lines 346-349). -/
def ipset_add (env : Env) (outcomes : Nat → SendOutcome) (fuel : Nat)
    (ipsetname : List Nat) (addr : List Nat) (timeout : Nat) :
    Except IpsetError (Option (Nat × Nat)) × Nat :=
  ipset_operate_run env outcomes fuel ipsetname addr timeout IPSET_ADD

/-- `ipset_del` (util.c lines 351-354): operate `IPSET_DEL`, timeout 0. -/
def ipset_del (env : Env) (outcomes : Nat → SendOutcome) (fuel : Nat)
    (ipsetname : List Nat) (addr : List Nat) :
    Except IpsetError (Option (Nat × Nat)) × Nat :=
  ipset_operate_run env outcomes fuel ipsetname addr 0 IPSET_DEL

/-- "Bounded retry on transient failures": there is a bound `B` on the
number of loop iterations after which the loop has always exited, even
when every `sendto` keeps failing with the transient `EAGAIN`.  (A
`.1 = none` result means the loop was still going after `fuel`
iterations, so a bound `B` requires a non-`none` result whenever
`B ≤ fuel`.) -/
def sendRetryBounded : Prop :=
  ∃ B : Nat, ∀ fuel i : Nat, B ≤ fuel →
    (sendLoop (fun _ => SendOutcome.err EAGAIN) fuel i).1 ≠ none

/-- Message-building parts of the two entry points, for claims about
the bytes produced. -/
def ipset_add_build (env : Env) (ipsetname : List Nat) (addr : List Nat)
    (timeout : Nat) : Except IpsetError MsgState :=
  ipset_operate_build env ipsetname addr timeout IPSET_ADD

def ipset_del_build (env : Env) (ipsetname : List Nat) (addr : List Nat) :
    Except IpsetError MsgState :=
  ipset_operate_build env ipsetname addr 0 IPSET_DEL

/-! ### Reading the wire format back

A TLV walk over the produced bytes, following the same layout the
builder uses: a u16 declared length and u16 type at each 4-byte-aligned
position, a payload of `declared length - 4` bytes, and the next
attribute at the 4-byte-aligned end of the previous one.  Nested
payloads (the DATA and IP containers) are walked by re-running the same
walk on the container's payload. -/

def readU8 (l : List Nat) (i : Nat) : Nat := l.getD i 0

def readU16 (l : List Nat) (i : Nat) : Nat := l.getD i 0 + 256 * l.getD (i + 1) 0

def readU32 (l : List Nat) (i : Nat) : Nat := readU16 l i + 2 ^ 16 * readU16 l (i + 2)

/-- The first four bytes of a payload read in network byte order. -/
def readBE32 (l : List Nat) : Nat :=
  ((l.getD 0 0 * 256 + l.getD 1 0) * 256 + l.getD 2 0) * 256 + l.getD 3 0

/-- One TLV level: the (type, payload) pairs of a well-formed attribute
stream, `none` when the stream is malformed or `fuel` attributes were
exceeded. -/
def parseTLV : Nat → List Nat → Option (List (Nat × List Nat))
  | _, [] => some []
  | 0, _ => none
  | fuel + 1, l0 :: l1 :: t0 :: t1 :: rest =>
    let len := l0 + 256 * l1
    let ty := t0 + 256 * t1
    if 4 ≤ len ∧ len - 4 ≤ rest.length then
      match parseTLV fuel (rest.drop (NETLINK_ALIGN len - 4)) with
      | some tail => some ((ty, rest.take (len - 4)) :: tail)
      | none => none
    else none
  | _ + 1, _ => none

/-- The decoded view of one ipset request: header fields, then the set
name (SETNAME payload without its NUL), and inside the DATA container
the IP container's single address attribute and, when a second DATA
child exists, its payload's leading four bytes as a network-byte-order
timeout. -/
structure Decoded where
  msg_type : Nat
  family : Nat
  setname : List Nat
  addr_ty : Nat
  addr : List Nat
  timeout : Option Nat
deriving DecidableEq

def decodeMsg (bytes : List Nat) : Option Decoded :=
  if bytes.length < 20 then none
  else if readU32 bytes 0 ≠ bytes.length then none
  else
    match parseTLV bytes.length (bytes.drop 20) with
    | some [(_ty1, _p1), (_ty2, p2), (_ty3, p3)] =>
      match parseTLV bytes.length p3 with
      | some [(_tyIP, pIP)] =>
        match parseTLV bytes.length pIP with
        | some [(tyA, pA)] =>
          some ⟨readU16 bytes 4, readU8 bytes 16, p2.dropLast, tyA, pA, none⟩
        | _ => none
      | some [(_tyIP, pIP), (_tyT, pT)] =>
        match parseTLV bytes.length pIP with
        | some [(tyA, pA)] =>
          some ⟨readU16 bytes 4, readU8 bytes 16, p2.dropLast, tyA, pA,
            some (readBE32 pT)⟩
        | _ => none
      | _ => none
    | _ => none

/-! ### Alignment arithmetic -/

theorem align_ge (x : Nat) : x ≤ NETLINK_ALIGN x := by
  unfold NETLINK_ALIGN; omega

theorem align_lt (x : Nat) : NETLINK_ALIGN x < x + 4 := by
  unfold NETLINK_ALIGN; omega

theorem align_mod (x : Nat) : NETLINK_ALIGN x % 4 = 0 := by
  unfold NETLINK_ALIGN; omega

theorem align_eq_of_mod (x : Nat) (h : x % 4 = 0) : NETLINK_ALIGN x = x := by
  unfold NETLINK_ALIGN; omega

/-! ### Buffer-surgery lemmas for `writeBytes` -/

/-- Writing at offset `o = C.length + k` into a buffer whose tail is
zeros keeps the prefix, materializes `k` of the zeros as padding, and
shortens the zero tail. -/
theorem writeBytes_zeros (C : List Nat) (m k o m' : Nat) (d : List Nat)
    (ho : o = C.length + k) (hm' : m' = m - (k + d.length))
    (h : k + d.length <= m) :
    writeBytes (C ++ List.replicate m 0) o d =
      (C ++ (List.replicate k 0 ++ d)) ++ List.replicate m' 0 := by
  unfold writeBytes
  subst ho
  rw [List.take_append_eq_append_take, List.take_of_length_le (by omega),
    List.take_replicate, List.drop_append_eq_append_drop,
    List.drop_of_length_le (by omega), List.drop_replicate]
  have hmin : (C.length + k - C.length) ⊓ m = k := by omega
  have hdrop : m - (C.length + k + d.length - C.length) = m' := by omega
  rw [hmin, hdrop]
  simp [List.append_assoc]

/-- Backpatching two bytes in the middle of the buffer. -/
theorem writeBytes_patch2 (A rest : List Nat) (b0 b1 x y o : Nat)
    (ho : o = A.length) :
    writeBytes (A ++ b0 :: b1 :: rest) o [x, y] = A ++ x :: y :: rest := by
  unfold writeBytes
  subst ho
  rw [List.take_left' rfl, List.drop_append_eq_append_drop,
    List.drop_of_length_le (by omega)]
  have h2 : A.length + [x, y].length - A.length = 2 := by simp
  rw [h2]
  simp

/-! ### The three buffer operations on states in normal form

A state is in normal form when its buffer is `C ++ List.replicate m 0`
with `C` exactly the bytes written so far (alignment padding
materialized as explicit zero bytes) and `nlmsg_len = C.length`. -/

theorem ipset_add_attr_norm (C g : List Nat) (m L ty len pad m' : Nat)
    (data : List Nat)
    (hL : L = C.length) (hL4 : L % 4 = 0)
    (hdata : data.length = len) (hlen16 : 4 + len < 2 ^ 16)
    (hpad : pad = NETLINK_ALIGN (4 + len) - (4 + len))
    (hm' : m' = m - (4 + len + pad)) (hroom : 4 + len + pad <= m) :
    ipset_add_attr ⟨C ++ List.replicate m 0, L, g⟩ ty len data =
      ⟨(C ++ (u16le (4 + len) ++ u16le ty ++ (data ++ List.replicate pad 0))) ++
          List.replicate m' 0,
        L + (4 + len + pad), g ++ [L]⟩ := by
  have halign : NETLINK_ALIGN (4 + len) = 4 + len + pad := by
    have hge := align_ge (4 + len); omega
  have htake : data.take len = data := List.take_of_length_le (by omega)
  have h4 : NETLINK_ALIGN ipset_netlink_attr_size = 4 := by decide
  have hmod : (4 + len) % 2 ^ 16 = 4 + len := by omega
  have hlen2 : (u16le (4 + len) ++ u16le ty).length = 4 := by simp [u16le]
  unfold ipset_add_attr
  simp only [align_eq_of_mod L hL4, h4, hmod, htake]
  rw [writeBytes_zeros C m 0 L (m - 4) (u16le (4 + len) ++ u16le ty)
    (by omega) (by rw [hlen2]) (by rw [hlen2]; omega)]
  rw [writeBytes_zeros (C ++ (List.replicate 0 0 ++ (u16le (4 + len) ++ u16le ty)))
    (m - 4) 0 (L + 4) (m - 4 - len) data
    (by simp only [List.length_append, List.length_replicate, hlen2]; omega)
    (by omega) (by omega)]
  rw [halign]
  have hsplit : List.replicate (m - 4 - len) (0 : Nat) =
      List.replicate pad 0 ++ List.replicate m' 0 := by
    rw [← List.replicate_add,
      show pad + m' = m - 4 - len from by omega]
  rw [hsplit]
  simp [List.append_assoc]

theorem ipset_open_nested_norm (C g : List Nat) (m L ty m' : Nat)
    (hL : L = C.length) (hL4 : L % 4 = 0)
    (hm' : m' = m - 4) (hroom : 4 <= m) :
    ipset_open_nested ⟨C ++ List.replicate m 0, L, g⟩ ty =
      (⟨(C ++ (0 :: 0 :: u16le ty)) ++ List.replicate m' 0, L + 4, g ++ [L]⟩, L) := by
  have h4 : NETLINK_ALIGN ipset_netlink_attr_size = 4 := by decide
  have hlen2 : (u16le ty).length = 2 := by simp [u16le]
  unfold ipset_open_nested
  simp only [align_eq_of_mod L hL4, h4]
  rw [writeBytes_zeros C m 2 (L + 2) m' (u16le ty)
    (by omega) (by rw [hlen2]; omega) (by rw [hlen2]; omega)]
  have h2 : List.replicate 2 (0 : Nat) ++ u16le ty = 0 :: 0 :: u16le ty := rfl
  rw [h2]

theorem ipset_close_nested_norm (A rest g : List Nat) (L off b0 b1 : Nat)
    (hoff : off = A.length)
    (hb : u16le (NETLINK_ALIGN L - off) = [b0, b1]) :
    ipset_close_nested ⟨A ++ 0 :: 0 :: rest, L, g⟩ off =
      ⟨A ++ b0 :: b1 :: rest, L, g⟩ := by
  unfold ipset_close_nested
  simp only [hb]
  rw [writeBytes_patch2 A rest 0 0 b0 b1 off hoff]

/-- `ipset_support_timeout` returns 0 exactly when the flag is set. -/
theorem support_timeout_eq_zero (env : Env) (nm : List Nat) :
    ipset_support_timeout env nm = 0 ↔ env.timeout_enable = true := by
  unfold ipset_support_timeout
  cases h : env.timeout_enable <;> simp

/-- Bringing a zero-filled nested length field to the patch position. -/
theorem append_patch_shape2 (A x y : List Nat) :
    (A ++ (0 :: 0 :: x)) ++ y = A ++ 0 :: 0 :: (x ++ y) := by
  simp

/-- Restoring the trailing-zeros normal form after a backpatch. -/
theorem append_unpatch (A x z : List Nat) (b0 b1 : Nat) :
    A ++ b0 :: b1 :: (x ++ z) = (A ++ (b0 :: b1 :: x)) ++ z := by
  simp

/-- Re-association bringing a nested-attribute header's zero-filled
length field to the patch position. -/
theorem append_patch_shape (A x y z : List Nat) :
    ((A ++ (0 :: 0 :: x)) ++ y) ++ z = A ++ 0 :: 0 :: (x ++ (y ++ z)) := by
  simp

/-! ### Normal form of every successfully built message

One lemma per branch of the builder: IPv4/IPv6 address, timeout
attribute present or absent.  Each states the complete byte-level
content of the buffer, the final `nlmsg_len`, and the attribute header
offsets, for an arbitrary valid set name (`p` abbreviates the aligned
size of the SETNAME attribute). -/

theorem u16le_eq_bytes (v b0 b1 : Nat) (h0 : v % 256 = b0)
    (h1 : v / 256 % 256 = b1) : u16le v = [b0, b1] := by
  simp [u16le, h0, h1]

theorem u64le_length (v : Nat) : (u64le v).length = 8 := by
  simp [u64le, u32le]

theorem u16le_length (v : Nat) : (u16le v).length = 2 := by
  simp [u16le]

set_option maxHeartbeats 1000000 in
theorem build_norm_v4 (env : Env) (name addr : List Nat) (timeout op p : Nat)
    (hsock : env.socket_ok = true)
    (hn : name.length < 32)
    (ha : addr.length = 4)
    (hp : p = NETLINK_ALIGN (name.length + 5))
    (htm : ¬(0 < timeout ∧ env.timeout_enable = true)) :
    ipset_operate_build env name addr timeout op = .ok
      { buf :=
          ([] ++
            (List.replicate 4 0 ++
              (u16le (op ||| NFNL_SUBSYS_IPSET <<< 8) ++
                u16le (NLM_F_REQUEST ||| NLM_F_REPLACE))) ++
            (List.replicate 8 0 ++
              ([AF_INET % 256, NFNETLINK_V0] ++ u16le (htons 0))) ++
            (u16le (4 + 1) ++ u16le IPSET_ATTR_PROTOCOL ++
              ([IPSET_PROTOCOL] ++ List.replicate 3 0)) ++
            (u16le (4 + (name.length + 1)) ++ u16le IPSET_ATTR_SETNAME ++
              (name ++ [0] ++ List.replicate (p - (name.length + 5)) 0)) ++
            (16 :: 0 :: u16le (NLA_F_NESTED ||| IPSET_ATTR_DATA)) ++
            (12 :: 0 :: u16le (NLA_F_NESTED ||| IPSET_ATTR_IP)) ++
            (u16le (4 + 4) ++
              u16le (IPSET_ATTR_IPADDR_IPV4 ||| NLA_F_NET_BYTEORDER) ++ addr)) ++
          List.replicate (212 - p) 0,
        nlmsg_len := 44 + p,
        attrs := [20, 28, 28 + p, 32 + p, 36 + p] } := by
  have hp4 : p % 4 = 0 := by rw [hp]; exact align_mod _
  have hpge : name.length + 5 ≤ p := hp ▸ align_ge _
  have hplt : p < name.length + 9 := hp ▸ align_lt _
  have hA16 : NETLINK_ALIGN nlmsghdr_size = 16 := by decide
  have hA4 : NETLINK_ALIGN ipset_netlink_msg_size = 4 := by decide
  have hB : BUFF_SZ = 256 := rfl
  simp only [ipset_operate_build, ha, hA16, hA4, hB]
  rw [if_neg (show ¬((4:Nat) ≠ IPV4_ADDR_LEN ∧ (4:Nat) ≠ IPV6_ADDR_LEN) from by decide)]
  rw [if_neg (show ¬(env.socket_ok = false) from by simp [hsock])]
  rw [if_neg (show ¬(IPSET_MAXNAMELEN ≤ name.length) from by
    simp only [IPSET_MAXNAMELEN]; omega)]
  rw [if_pos (show (4:Nat) = IPV4_ADDR_LEN from rfl)]
  rw [if_pos (show AF_INET = AF_INET from rfl)]
  rw [if_neg (show ¬(0 < timeout ∧ ipset_support_timeout env name = 0) from by
    simp only [support_timeout_eq_zero]; exact htm)]
  rw [show (List.replicate 256 (0:Nat)) = [] ++ List.replicate 256 0 from rfl]
  rw [writeBytes_zeros [] 256 4 4 248]
  rw [writeBytes_zeros _ 248 8 16 236]
  rw [ipset_add_attr_norm _ _ _ _ _ _ 3 228]
  rw [ipset_add_attr_norm _ _ _ _ _ _ (p - (name.length + 5)) (228 - p)]
  rw [ipset_open_nested_norm _ _ _ _ _ (224 - p)]
  dsimp only
  rw [ipset_open_nested_norm _ _ _ _ _ (220 - p)]
  dsimp only
  rw [ipset_add_attr_norm _ _ _ _ _ _ 0 (212 - p)]
  rw [append_patch_shape2, append_patch_shape2]
  rw [ipset_close_nested_norm _ _ _ _ _ 12 0]
  rw [append_patch_shape2]
  rw [ipset_close_nested_norm _ _ _ _ _ 16 0]
  · simp only [Except.ok.injEq, MsgState.mk.injEq, List.nil_append,
      List.singleton_append, List.cons_append, List.cons.injEq, and_true, true_and,
      List.append_assoc, List.replicate_zero, List.append_nil]
    omega
  all_goals try (rw [(show (4:Nat) + (name.length + 1) = name.length + 5 by omega),
    ← hp])
  all_goals try (first
    | (rw [align_eq_of_mod _ (by omega)];
       exact u16le_eq_bytes _ _ _ (by omega) (by omega))
    | exact u16le_eq_bytes _ _ _ (by omega) (by omega))
  all_goals try decide
  all_goals try simp only [List.length_append, List.length_replicate, List.length_cons,
    List.length_nil, u16le_length, List.nil_append]
  all_goals omega

set_option maxHeartbeats 1000000 in
theorem build_norm_v4_tmo (env : Env) (name addr : List Nat) (timeout op p : Nat)
    (hsock : env.socket_ok = true)
    (hn : name.length < 32)
    (ha : addr.length = 4)
    (hp : p = NETLINK_ALIGN (name.length + 5))
    (htm : 0 < timeout ∧ env.timeout_enable = true) :
    ipset_operate_build env name addr timeout op = .ok
      { buf :=
          ([] ++
            (List.replicate 4 0 ++
              (u16le (op ||| NFNL_SUBSYS_IPSET <<< 8) ++
                u16le (NLM_F_REQUEST ||| NLM_F_REPLACE))) ++
            (List.replicate 8 0 ++
              ([AF_INET % 256, NFNETLINK_V0] ++ u16le (htons 0))) ++
            (u16le (4 + 1) ++ u16le IPSET_ATTR_PROTOCOL ++
              ([IPSET_PROTOCOL] ++ List.replicate 3 0)) ++
            (u16le (4 + (name.length + 1)) ++ u16le IPSET_ATTR_SETNAME ++
              (name ++ [0] ++ List.replicate (p - (name.length + 5)) 0)) ++
            (28 :: 0 :: u16le (NLA_F_NESTED ||| IPSET_ATTR_DATA)) ++
            (12 :: 0 :: u16le (NLA_F_NESTED ||| IPSET_ATTR_IP)) ++
            (u16le (4 + 4) ++
              u16le (IPSET_ATTR_IPADDR_IPV4 ||| NLA_F_NET_BYTEORDER) ++ addr) ++
            (u16le (4 + 8) ++
              u16le (IPSET_ATTR_TIMEOUT ||| NLA_F_NET_BYTEORDER) ++
              u64le (htonl timeout))) ++
          List.replicate (200 - p) 0,
        nlmsg_len := 56 + p,
        attrs := [20, 28, 28 + p, 32 + p, 36 + p, 44 + p] } := by
  have hp4 : p % 4 = 0 := by rw [hp]; exact align_mod _
  have hpge : name.length + 5 ≤ p := hp ▸ align_ge _
  have hplt : p < name.length + 9 := hp ▸ align_lt _
  have hA16 : NETLINK_ALIGN nlmsghdr_size = 16 := by decide
  have hA4 : NETLINK_ALIGN ipset_netlink_msg_size = 4 := by decide
  have hB : BUFF_SZ = 256 := rfl
  have hSZ : sizeof_unsigned_long = 8 := rfl
  simp only [ipset_operate_build, ha, hA16, hA4, hB, hSZ]
  rw [if_neg (show ¬((4:Nat) ≠ IPV4_ADDR_LEN ∧ (4:Nat) ≠ IPV6_ADDR_LEN) from by decide)]
  rw [if_neg (show ¬(env.socket_ok = false) from by simp [hsock])]
  rw [if_neg (show ¬(IPSET_MAXNAMELEN ≤ name.length) from by
    simp only [IPSET_MAXNAMELEN]; omega)]
  rw [if_pos (show (4:Nat) = IPV4_ADDR_LEN from rfl)]
  rw [if_pos (show AF_INET = AF_INET from rfl)]
  rw [if_pos (show (0 < timeout ∧ ipset_support_timeout env name = 0) from
    ⟨htm.1, (support_timeout_eq_zero env name).mpr htm.2⟩)]
  rw [show (List.replicate 256 (0:Nat)) = [] ++ List.replicate 256 0 from rfl]
  rw [writeBytes_zeros [] 256 4 4 248]
  rw [writeBytes_zeros _ 248 8 16 236]
  rw [ipset_add_attr_norm _ _ _ _ _ _ 3 228]
  rw [ipset_add_attr_norm _ _ _ _ _ _ (p - (name.length + 5)) (228 - p)]
  rw [ipset_open_nested_norm _ _ _ _ _ (224 - p)]
  dsimp only
  rw [ipset_open_nested_norm _ _ _ _ _ (220 - p)]
  dsimp only
  rw [ipset_add_attr_norm _ _ _ _ _ _ 0 (212 - p)]
  rw [append_patch_shape2, append_patch_shape2]
  rw [ipset_close_nested_norm _ _ _ _ _ 12 0]
  rw [append_unpatch]
  rw [ipset_add_attr_norm _ _ _ _ _ _ 0 (200 - p)]
  rw [append_patch_shape2, append_patch_shape2, append_patch_shape2]
  rw [ipset_close_nested_norm _ _ _ _ _ 28 0]
  · simp only [Except.ok.injEq, MsgState.mk.injEq, List.nil_append,
      List.singleton_append, List.cons_append, List.cons.injEq, and_true, true_and,
      List.append_assoc, List.replicate_zero, List.append_nil]
    omega
  all_goals try (rw [(show (4:Nat) + (name.length + 1) = name.length + 5 by omega),
    ← hp])
  all_goals try (first
    | (rw [align_eq_of_mod _ (by omega)];
       exact u16le_eq_bytes _ _ _ (by omega) (by omega))
    | exact u16le_eq_bytes _ _ _ (by omega) (by omega))
  all_goals try decide
  all_goals try simp only [List.length_append, List.length_replicate, List.length_cons,
    List.length_nil, u16le_length, u64le_length, List.nil_append]
  all_goals omega

set_option maxHeartbeats 1000000 in
theorem build_norm_v6 (env : Env) (name addr : List Nat) (timeout op p : Nat)
    (hsock : env.socket_ok = true)
    (hn : name.length < 32)
    (ha : addr.length = 16)
    (hp : p = NETLINK_ALIGN (name.length + 5))
    (htm : ¬(0 < timeout ∧ env.timeout_enable = true)) :
    ipset_operate_build env name addr timeout op = .ok
      { buf :=
          ([] ++
            (List.replicate 4 0 ++
              (u16le (op ||| NFNL_SUBSYS_IPSET <<< 8) ++
                u16le (NLM_F_REQUEST ||| NLM_F_REPLACE))) ++
            (List.replicate 8 0 ++
              ([AF_INET6 % 256, NFNETLINK_V0] ++ u16le (htons 0))) ++
            (u16le (4 + 1) ++ u16le IPSET_ATTR_PROTOCOL ++
              ([IPSET_PROTOCOL] ++ List.replicate 3 0)) ++
            (u16le (4 + (name.length + 1)) ++ u16le IPSET_ATTR_SETNAME ++
              (name ++ [0] ++ List.replicate (p - (name.length + 5)) 0)) ++
            (28 :: 0 :: u16le (NLA_F_NESTED ||| IPSET_ATTR_DATA)) ++
            (24 :: 0 :: u16le (NLA_F_NESTED ||| IPSET_ATTR_IP)) ++
            (u16le (4 + 16) ++
              u16le (IPSET_ATTR_IPADDR_IPV6 ||| NLA_F_NET_BYTEORDER) ++ addr)) ++
          List.replicate (200 - p) 0,
        nlmsg_len := 56 + p,
        attrs := [20, 28, 28 + p, 32 + p, 36 + p] } := by
  have hp4 : p % 4 = 0 := by rw [hp]; exact align_mod _
  have hpge : name.length + 5 ≤ p := hp ▸ align_ge _
  have hplt : p < name.length + 9 := hp ▸ align_lt _
  have hA16 : NETLINK_ALIGN nlmsghdr_size = 16 := by decide
  have hA4 : NETLINK_ALIGN ipset_netlink_msg_size = 4 := by decide
  have hB : BUFF_SZ = 256 := rfl
  simp only [ipset_operate_build, ha, hA16, hA4, hB]
  rw [if_neg (show ¬((16:Nat) ≠ IPV4_ADDR_LEN ∧ (16:Nat) ≠ IPV6_ADDR_LEN) from by decide)]
  rw [if_neg (show ¬(env.socket_ok = false) from by simp [hsock])]
  rw [if_neg (show ¬(IPSET_MAXNAMELEN ≤ name.length) from by
    simp only [IPSET_MAXNAMELEN]; omega)]
  rw [if_neg (show ¬((16:Nat) = IPV4_ADDR_LEN) from by decide)]
  rw [if_neg (show ¬(AF_INET6 = AF_INET) from by decide)]
  rw [if_neg (show ¬(0 < timeout ∧ ipset_support_timeout env name = 0) from by
    simp only [support_timeout_eq_zero]; exact htm)]
  rw [show (List.replicate 256 (0:Nat)) = [] ++ List.replicate 256 0 from rfl]
  rw [writeBytes_zeros [] 256 4 4 248]
  rw [writeBytes_zeros _ 248 8 16 236]
  rw [ipset_add_attr_norm _ _ _ _ _ _ 3 228]
  rw [ipset_add_attr_norm _ _ _ _ _ _ (p - (name.length + 5)) (228 - p)]
  rw [ipset_open_nested_norm _ _ _ _ _ (224 - p)]
  dsimp only
  rw [ipset_open_nested_norm _ _ _ _ _ (220 - p)]
  dsimp only
  rw [ipset_add_attr_norm _ _ _ _ _ _ 0 (200 - p)]
  rw [append_patch_shape2, append_patch_shape2]
  rw [ipset_close_nested_norm _ _ _ _ _ 24 0]
  rw [append_patch_shape2]
  rw [ipset_close_nested_norm _ _ _ _ _ 28 0]
  · simp only [Except.ok.injEq, MsgState.mk.injEq, List.nil_append,
      List.singleton_append, List.cons_append, List.cons.injEq, and_true, true_and,
      List.append_assoc, List.replicate_zero, List.append_nil]
    omega
  all_goals try (rw [(show (4:Nat) + (name.length + 1) = name.length + 5 by omega),
    ← hp])
  all_goals try (first
    | (rw [align_eq_of_mod _ (by omega)];
       exact u16le_eq_bytes _ _ _ (by omega) (by omega))
    | exact u16le_eq_bytes _ _ _ (by omega) (by omega))
  all_goals try decide
  all_goals try simp only [List.length_append, List.length_replicate, List.length_cons,
    List.length_nil, u16le_length, u64le_length, List.nil_append]
  all_goals omega

set_option maxHeartbeats 1000000 in
theorem build_norm_v6_tmo (env : Env) (name addr : List Nat) (timeout op p : Nat)
    (hsock : env.socket_ok = true)
    (hn : name.length < 32)
    (ha : addr.length = 16)
    (hp : p = NETLINK_ALIGN (name.length + 5))
    (htm : 0 < timeout ∧ env.timeout_enable = true) :
    ipset_operate_build env name addr timeout op = .ok
      { buf :=
          ([] ++
            (List.replicate 4 0 ++
              (u16le (op ||| NFNL_SUBSYS_IPSET <<< 8) ++
                u16le (NLM_F_REQUEST ||| NLM_F_REPLACE))) ++
            (List.replicate 8 0 ++
              ([AF_INET6 % 256, NFNETLINK_V0] ++ u16le (htons 0))) ++
            (u16le (4 + 1) ++ u16le IPSET_ATTR_PROTOCOL ++
              ([IPSET_PROTOCOL] ++ List.replicate 3 0)) ++
            (u16le (4 + (name.length + 1)) ++ u16le IPSET_ATTR_SETNAME ++
              (name ++ [0] ++ List.replicate (p - (name.length + 5)) 0)) ++
            (40 :: 0 :: u16le (NLA_F_NESTED ||| IPSET_ATTR_DATA)) ++
            (24 :: 0 :: u16le (NLA_F_NESTED ||| IPSET_ATTR_IP)) ++
            (u16le (4 + 16) ++
              u16le (IPSET_ATTR_IPADDR_IPV6 ||| NLA_F_NET_BYTEORDER) ++ addr) ++
            (u16le (4 + 8) ++
              u16le (IPSET_ATTR_TIMEOUT ||| NLA_F_NET_BYTEORDER) ++
              u64le (htonl timeout))) ++
          List.replicate (188 - p) 0,
        nlmsg_len := 68 + p,
        attrs := [20, 28, 28 + p, 32 + p, 36 + p, 56 + p] } := by
  have hp4 : p % 4 = 0 := by rw [hp]; exact align_mod _
  have hpge : name.length + 5 ≤ p := hp ▸ align_ge _
  have hplt : p < name.length + 9 := hp ▸ align_lt _
  have hA16 : NETLINK_ALIGN nlmsghdr_size = 16 := by decide
  have hA4 : NETLINK_ALIGN ipset_netlink_msg_size = 4 := by decide
  have hB : BUFF_SZ = 256 := rfl
  have hSZ : sizeof_unsigned_long = 8 := rfl
  simp only [ipset_operate_build, ha, hA16, hA4, hB, hSZ]
  rw [if_neg (show ¬((16:Nat) ≠ IPV4_ADDR_LEN ∧ (16:Nat) ≠ IPV6_ADDR_LEN) from by decide)]
  rw [if_neg (show ¬(env.socket_ok = false) from by simp [hsock])]
  rw [if_neg (show ¬(IPSET_MAXNAMELEN ≤ name.length) from by
    simp only [IPSET_MAXNAMELEN]; omega)]
  rw [if_neg (show ¬((16:Nat) = IPV4_ADDR_LEN) from by decide)]
  rw [if_neg (show ¬(AF_INET6 = AF_INET) from by decide)]
  rw [if_pos (show (0 < timeout ∧ ipset_support_timeout env name = 0) from
    ⟨htm.1, (support_timeout_eq_zero env name).mpr htm.2⟩)]
  rw [show (List.replicate 256 (0:Nat)) = [] ++ List.replicate 256 0 from rfl]
  rw [writeBytes_zeros [] 256 4 4 248]
  rw [writeBytes_zeros _ 248 8 16 236]
  rw [ipset_add_attr_norm _ _ _ _ _ _ 3 228]
  rw [ipset_add_attr_norm _ _ _ _ _ _ (p - (name.length + 5)) (228 - p)]
  rw [ipset_open_nested_norm _ _ _ _ _ (224 - p)]
  dsimp only
  rw [ipset_open_nested_norm _ _ _ _ _ (220 - p)]
  dsimp only
  rw [ipset_add_attr_norm _ _ _ _ _ _ 0 (200 - p)]
  rw [append_patch_shape2, append_patch_shape2]
  rw [ipset_close_nested_norm _ _ _ _ _ 24 0]
  rw [append_unpatch]
  rw [ipset_add_attr_norm _ _ _ _ _ _ 0 (188 - p)]
  rw [append_patch_shape2, append_patch_shape2, append_patch_shape2]
  rw [ipset_close_nested_norm _ _ _ _ _ 40 0]
  · simp only [Except.ok.injEq, MsgState.mk.injEq, List.nil_append,
      List.singleton_append, List.cons_append, List.cons.injEq, and_true, true_and,
      List.append_assoc, List.replicate_zero, List.append_nil]
    omega
  all_goals try (rw [(show (4:Nat) + (name.length + 1) = name.length + 5 by omega),
    ← hp])
  all_goals try (first
    | (rw [align_eq_of_mod _ (by omega)];
       exact u16le_eq_bytes _ _ _ (by omega) (by omega))
    | exact u16le_eq_bytes _ _ _ (by omega) (by omega))
  all_goals try decide
  all_goals try simp only [List.length_append, List.length_replicate, List.length_cons,
    List.length_nil, u16le_length, u64le_length, List.nil_append]
  all_goals omega

/-! ### Evaluating the TLV walk on well-formed streams -/

theorem parseTLV_nil (fuel : Nat) : parseTLV fuel [] = some [] := by
  cases fuel <;> rfl

theorem parse_step_last (fuel l0 l1 t0 t1 ty : Nat) (R : List Nat)
    (hf : 1 ≤ fuel)
    (hl : l0 + 256 * l1 = 4 + R.length)
    (hty : t0 + 256 * t1 = ty)
    (h4 : (4 + R.length) % 4 = 0) :
    parseTLV fuel (l0 :: l1 :: t0 :: t1 :: R) = some [(ty, R)] := by
  obtain ⟨f, rfl⟩ : ∃ f, fuel = f + 1 := ⟨fuel - 1, by omega⟩
  simp only [parseTLV]
  rw [if_pos (by omega)]
  have hdrop : R.drop (NETLINK_ALIGN (l0 + 256 * l1) - 4) = [] := by
    apply List.drop_of_length_le
    rw [hl, align_eq_of_mod _ h4]
    omega
  rw [hdrop, parseTLV_nil]
  have htake : R.take (l0 + 256 * l1 - 4) = R := by
    apply List.take_of_length_le
    omega
  rw [htake, hty]

theorem parse_step_mid (fuel l0 l1 t0 t1 ty : Nat) (payload R : List Nat)
    (hf : 1 ≤ fuel)
    (hl : l0 + 256 * l1 = 4 + payload.length)
    (hty : t0 + 256 * t1 = ty)
    (h4 : (4 + payload.length) % 4 = 0) :
    parseTLV fuel (l0 :: l1 :: t0 :: t1 :: (payload ++ R)) =
      (parseTLV (fuel - 1) R).map (fun tail => (ty, payload) :: tail) := by
  obtain ⟨f, rfl⟩ : ∃ f, fuel = f + 1 := ⟨fuel - 1, by omega⟩
  simp only [parseTLV]
  rw [if_pos ⟨by omega, by rw [List.length_append]; omega⟩]
  have hdrop : (payload ++ R).drop (NETLINK_ALIGN (l0 + 256 * l1) - 4) = R := by
    rw [hl, align_eq_of_mod _ h4]
    exact List.drop_left' (by omega)
  have htake : (payload ++ R).take (l0 + 256 * l1 - 4) = payload := by
    apply List.take_left'
    omega
  rw [hdrop, htake, hty]
  simp only [Nat.add_sub_cancel, Nat.mul_zero, Nat.add_zero]
  cases parseTLV f R <;> rfl

theorem parse_step_proto (fuel : Nat) (R : List Nat) (hf : 1 ≤ fuel) :
    parseTLV fuel (5 :: 0 :: 1 :: 0 :: 6 :: 0 :: 0 :: 0 :: R) =
      (parseTLV (fuel - 1) R).map (fun tail => (1, [6]) :: tail) := by
  obtain ⟨f, rfl⟩ : ∃ f, fuel = f + 1 := ⟨fuel - 1, by omega⟩
  simp only [parseTLV]
  rw [if_pos ⟨by omega, by simp⟩]
  have ha : NETLINK_ALIGN (5 + 256 * 0) - 4 = 4 := by decide
  rw [ha]
  simp only [Nat.add_sub_cancel]
  have hr : (6 :: 0 :: 0 :: 0 :: R).drop 4 = R := rfl
  rw [hr]
  simp only [Nat.add_sub_cancel, Nat.mul_zero, Nat.add_zero]
  cases parseTLV f R <;> rfl

theorem parse_step_setname (fuel sn0 sn1 k : Nat) (name R : List Nat)
    (hf : 1 ≤ fuel)
    (hsn : sn0 + 256 * sn1 = name.length + 5)
    (hn : name.length < 32)
    (hk : k = NETLINK_ALIGN (name.length + 5) - (name.length + 5)) :
    parseTLV fuel (sn0 :: sn1 :: 2 :: 0 :: (name ++ 0 :: (List.replicate k 0 ++ R))) =
      (parseTLV (fuel - 1) R).map (fun tail => (2, name ++ [0]) :: tail) := by
  obtain ⟨f, rfl⟩ : ∃ f, fuel = f + 1 := ⟨fuel - 1, by omega⟩
  have hge := align_ge (name.length + 5)
  have hlt := align_lt (name.length + 5)
  have hmod := align_mod (name.length + 5)
  simp only [parseTLV]
  rw [if_pos ⟨by omega,
    by simp only [List.length_append, List.length_cons, List.length_replicate]; omega⟩]
  have htake : (name ++ 0 :: (List.replicate k 0 ++ R)).take (sn0 + 256 * sn1 - 4) =
      name ++ [0] := by
    rw [List.take_append_eq_append_take, List.take_of_length_le (by omega)]
    have h1 : sn0 + 256 * sn1 - 4 - name.length = 1 := by omega
    rw [h1]
    rfl
  have hdrop : (name ++ 0 :: (List.replicate k 0 ++ R)).drop
      (NETLINK_ALIGN (sn0 + 256 * sn1) - 4) = R := by
    rw [hsn, List.drop_append_eq_append_drop, List.drop_of_length_le (by omega),
      List.nil_append]
    have h1 : NETLINK_ALIGN (name.length + 5) - 4 - name.length = k + 1 := by omega
    rw [h1, List.drop_succ_cons]
    exact List.drop_left' (by simp)
  rw [htake, hdrop]
  simp only [Nat.add_sub_cancel, Nat.mul_zero, Nat.add_zero]
  cases parseTLV f R <;> rfl

/-! ### Reading the fixed header fields of the canonical stream -/

theorem readU32_cons (a b c d : Nat) (R : List Nat) :
    readU32 (a :: b :: c :: d :: R) 0 = a + 256 * b + 2 ^ 16 * (c + 256 * d) := rfl

theorem readU16_at4 (x0 x1 x2 x3 x4 x5 : Nat) (R : List Nat) :
    readU16 (x0 :: x1 :: x2 :: x3 :: x4 :: x5 :: R) 4 = x4 + 256 * x5 := rfl

theorem readU8_at16 (x0 x1 x2 x3 x4 x5 x6 x7 x8 x9 x10 x11 x12 x13 x14 x15 x16 : Nat)
    (R : List Nat) :
    readU8 (x0 :: x1 :: x2 :: x3 :: x4 :: x5 :: x6 :: x7 :: x8 :: x9 :: x10 :: x11 ::
      x12 :: x13 :: x14 :: x15 :: x16 :: R) 16 = x16 := rfl

theorem drop20_cons (x0 x1 x2 x3 x4 x5 x6 x7 x8 x9 x10 x11 x12 x13 x14 x15 x16 x17
    x18 x19 : Nat) (R : List Nat) :
    (x0 :: x1 :: x2 :: x3 :: x4 :: x5 :: x6 :: x7 :: x8 :: x9 :: x10 :: x11 :: x12 ::
      x13 :: x14 :: x15 :: x16 :: x17 :: x18 :: x19 :: R).drop 20 = R := rfl

theorem u32le_small (v : Nat) (h : v < 256) : u32le v = [v, 0, 0, 0] := by
  simp only [u32le, List.cons.injEq, and_true]
  norm_num
  omega

/-! ### Decoding the canonical content, timeout attribute absent -/

theorem decode_content_notmo (MT ATY p a total mt0 mt1 afb sn0 sn1 k d0 i0 ah0
    aty0 aty1 : Nat) (name addr : List Nat)
    (hn : name.length < 32)
    (ha : addr.length = a)
    (ham : a % 4 = 0) (hab : 4 ≤ a ∧ a ≤ 16)
    (hp : p = NETLINK_ALIGN (name.length + 5))
    (htotal : total = 40 + p + a)
    (hmt : mt0 + 256 * mt1 = MT)
    (hsn : sn0 + 256 * sn1 = name.length + 5)
    (hk : k = p - (name.length + 5))
    (hd0 : d0 = 12 + a) (hi0 : i0 = 8 + a) (hah0 : ah0 = 4 + a)
    (haty : aty0 + 256 * aty1 = ATY) :
    decodeMsg (total :: 0 :: 0 :: 0 :: mt0 :: mt1 :: 1 :: 1 :: 0 :: 0 :: 0 :: 0 ::
      0 :: 0 :: 0 :: 0 :: afb :: 0 :: 0 :: 0 ::
      5 :: 0 :: 1 :: 0 :: 6 :: 0 :: 0 :: 0 ::
      sn0 :: sn1 :: 2 :: 0 :: (name ++ 0 :: (List.replicate k 0 ++
      (d0 :: 0 :: 7 :: 128 ::
       i0 :: 0 :: 1 :: 128 ::
       ah0 :: 0 :: aty0 :: aty1 :: addr)))) =
      some ⟨MT, afb, name, ATY, addr, none⟩ := by
  have hge := align_ge (name.length + 5)
  have hlt := align_lt (name.length + 5)
  have hmod := align_mod (name.length + 5)
  simp only [decodeMsg]
  rw [if_neg (by
    simp only [List.length_cons, List.length_append, List.length_replicate]
    omega)]
  rw [if_neg (by
    rw [readU32_cons]
    simp only [List.length_cons, List.length_append, List.length_replicate]
    omega)]
  rw [drop20_cons]
  rw [parse_step_proto]
  rw [parse_step_setname]
  rw [parse_step_last _ _ _ _ _ 32775]
  simp only [Option.map_some']
  rw [parse_step_last _ _ _ _ _ 32769]
  dsimp only
  rw [parse_step_last _ _ _ _ _ ATY]
  dsimp only
  rw [readU16_at4, readU8_at16, hmt, List.dropLast_concat]
  all_goals try exact hsn
  all_goals try exact hn
  all_goals try exact haty
  all_goals try (rw [hk, hp])
  all_goals try decide
  all_goals try (simp only [List.length_cons, List.length_append,
    List.length_replicate]; omega)
  all_goals omega

/-! ### Decoding the canonical content, timeout attribute present -/

theorem decode_content_tmo (MT ATY p a total mt0 mt1 afb sn0 sn1 k d0 i0 ah0
    aty0 aty1 : Nat) (name addr tpay : List Nat)
    (hn : name.length < 32)
    (ha : addr.length = a)
    (ham : a % 4 = 0) (hab : 4 ≤ a ∧ a ≤ 16)
    (hp : p = NETLINK_ALIGN (name.length + 5))
    (htotal : total = 52 + p + a)
    (hmt : mt0 + 256 * mt1 = MT)
    (hsn : sn0 + 256 * sn1 = name.length + 5)
    (hk : k = p - (name.length + 5))
    (hd0 : d0 = 24 + a) (hi0 : i0 = 8 + a) (hah0 : ah0 = 4 + a)
    (haty : aty0 + 256 * aty1 = ATY)
    (htpay : tpay.length = 8) :
    decodeMsg (total :: 0 :: 0 :: 0 :: mt0 :: mt1 :: 1 :: 1 :: 0 :: 0 :: 0 :: 0 ::
      0 :: 0 :: 0 :: 0 :: afb :: 0 :: 0 :: 0 ::
      5 :: 0 :: 1 :: 0 :: 6 :: 0 :: 0 :: 0 ::
      sn0 :: sn1 :: 2 :: 0 :: (name ++ 0 :: (List.replicate k 0 ++
      (d0 :: 0 :: 7 :: 128 ::
       i0 :: 0 :: 1 :: 128 ::
       ((ah0 :: 0 :: aty0 :: aty1 :: addr) ++ (12 :: 0 :: 6 :: 64 :: tpay)))))) =
      some ⟨MT, afb, name, ATY, addr, some (readBE32 tpay)⟩ := by
  have hge := align_ge (name.length + 5)
  have hlt := align_lt (name.length + 5)
  have hmod := align_mod (name.length + 5)
  simp only [decodeMsg]
  rw [if_neg (by
    simp only [List.length_cons, List.length_append, List.length_replicate]
    omega)]
  rw [if_neg (by
    rw [readU32_cons]
    simp only [List.length_cons, List.length_append, List.length_replicate]
    omega)]
  rw [drop20_cons]
  rw [parse_step_proto]
  rw [parse_step_setname]
  rw [parse_step_last _ _ _ _ _ 32775]
  simp only [Option.map_some']
  rw [parse_step_mid _ _ _ _ _ 32769]
  rw [parse_step_last _ _ _ _ _ 16390]
  simp only [Option.map_some']
  rw [parse_step_last _ _ _ _ _ ATY]
  dsimp only
  rw [readU16_at4, readU8_at16, hmt, List.dropLast_concat]
  all_goals try exact hsn
  all_goals try exact hn
  all_goals try exact haty
  all_goals try (rw [hk, hp])
  all_goals try decide
  all_goals try (simp only [List.length_cons, List.length_append,
    List.length_replicate]; omega)
  all_goals omega

/-! ### From the built state to the transmitted bytes -/

theorem content_shape (A X2 X3 X4 X5 X6 X7 : List Nat) :
    ([] ++ (List.replicate 4 0 ++ A) ++ X2 ++ X3 ++ X4 ++ X5 ++ X6 ++ X7 :
      List Nat) =
      List.replicate 4 0 ++ (A ++ (X2 ++ (X3 ++ (X4 ++ (X5 ++ (X6 ++ X7)))))) := by
  simp

theorem content_shape8 (A X2 X3 X4 X5 X6 X7 X8 : List Nat) :
    ([] ++ (List.replicate 4 0 ++ A) ++ X2 ++ X3 ++ X4 ++ X5 ++ X6 ++ X7 ++ X8 :
      List Nat) =
      List.replicate 4 0 ++
        (A ++ (X2 ++ (X3 ++ (X4 ++ (X5 ++ (X6 ++ (X7 ++ X8))))))) := by
  simp

/-- The bytes handed to `sendto` for a state in normal form: the final
`nlmsg_len` is serialized over the four zero bytes reserved for it, and
the unused zero tail is cut at `nlmsg_len`. -/
theorem sentBuffer_norm (R g : List Nat) (m L : Nat)
    (hL : L = 4 + R.length) :
    sentBuffer ⟨(List.replicate 4 0 ++ R) ++ List.replicate m 0, L, g⟩ =
      u32le (L % 2 ^ 32) ++ R := by
  unfold sentBuffer writeBytes
  dsimp only
  rw [List.take_zero, List.drop_append_eq_append_drop]
  have h1 : (0:Nat) + (u32le (L % 2 ^ 32)).length = 4 := by simp [u32le]
  rw [h1]
  have h2 : (List.replicate 4 0 ++ R).drop 4 = R := List.drop_left' (by simp)
  rw [h2]
  have h3 : 4 - (List.replicate 4 0 ++ R).length = 0 := by simp
  rw [h3, List.drop_zero, List.nil_append]
  have h4 : u32le (L % 2 ^ 32) ++ (R ++ List.replicate m 0) =
      (u32le (L % 2 ^ 32) ++ R) ++ List.replicate m 0 := by simp
  rw [h4]
  exact List.take_left' (by simp [u32le]; omega)

/-! ### Decoding every successfully built and transmitted message -/

theorem readBE32_u64le (a b c d : Nat) (ha : a < 256) (hb : b < 256)
    (hc : c < 256) (hd : d < 256) :
    readBE32 (u64le (a * 2 ^ 24 + b * 2 ^ 16 + c * 2 ^ 8 + d)) =
      d * 2 ^ 24 + c * 2 ^ 16 + b * 2 ^ 8 + a := by
  have h0 : readBE32 (u64le (a * 2 ^ 24 + b * 2 ^ 16 + c * 2 ^ 8 + d)) =
      (((a * 2 ^ 24 + b * 2 ^ 16 + c * 2 ^ 8 + d) % 2 ^ 32 % 256 * 256 +
          (a * 2 ^ 24 + b * 2 ^ 16 + c * 2 ^ 8 + d) % 2 ^ 32 / 256 % 256) * 256 +
        (a * 2 ^ 24 + b * 2 ^ 16 + c * 2 ^ 8 + d) % 2 ^ 32 / 2 ^ 16 % 256) * 256 +
        (a * 2 ^ 24 + b * 2 ^ 16 + c * 2 ^ 8 + d) % 2 ^ 32 / 2 ^ 24 % 256 := rfl
  rw [h0]
  have hm : (a * 2 ^ 24 + b * 2 ^ 16 + c * 2 ^ 8 + d) % 2 ^ 32 =
      a * 2 ^ 24 + b * 2 ^ 16 + c * 2 ^ 8 + d := by omega
  rw [hm]
  have h2 : (a * 2 ^ 24 + b * 2 ^ 16 + c * 2 ^ 8 + d) % 256 = d := by omega
  have h3 : (a * 2 ^ 24 + b * 2 ^ 16 + c * 2 ^ 8 + d) / 256 = a * 2 ^ 16 + b * 2 ^ 8 + c := by
    omega
  have h4 : (a * 2 ^ 24 + b * 2 ^ 16 + c * 2 ^ 8 + d) / 2 ^ 16 = a * 2 ^ 8 + b := by omega
  have h5 : (a * 2 ^ 24 + b * 2 ^ 16 + c * 2 ^ 8 + d) / 2 ^ 24 = a := by omega
  rw [h2, h3, h4, h5]
  have h6 : (a * 2 ^ 16 + b * 2 ^ 8 + c) % 256 = c := by omega
  have h7 : (a * 2 ^ 8 + b) % 256 = b := by omega
  have h8 : a % 256 = a := by omega
  rw [h6, h7, h8]
  ring

theorem readBE32_u64le_htonl (t : Nat) :
    readBE32 (u64le (htonl t)) = t % 2 ^ 32 := by
  have hH : htonl t = (t % 256) * 2 ^ 24 + (t / 2 ^ 8 % 256) * 2 ^ 16 +
      (t / 2 ^ 16 % 256) * 2 ^ 8 + t % 2 ^ 32 / 2 ^ 24 := rfl
  rw [hH, readBE32_u64le _ _ _ _ (by omega) (by omega) (by omega) (by omega)]
  rw [(show t % 2 ^ 32 / 2 ^ 24 = t / 2 ^ 24 % 256 by omega)]
  clear hH
  omega

set_option maxHeartbeats 1000000 in
theorem decode_build_v4 (env : Env) (name addr : List Nat) (timeout op p : Nat)
    (hsock : env.socket_ok = true)
    (hn : name.length < 32)
    (ha : addr.length = 4)
    (hp : p = NETLINK_ALIGN (name.length + 5))
    (htm : ¬(0 < timeout ∧ env.timeout_enable = true)) :
    (ipset_operate_build env name addr timeout op).map
      (fun s => decodeMsg (sentBuffer s)) =
      .ok (some ⟨(op ||| NFNL_SUBSYS_IPSET <<< 8) % 2 ^ 16, 2, name,
        16385, addr, none⟩) := by
  have hge := align_ge (name.length + 5)
  have hlt := align_lt (name.length + 5)
  have hmod := align_mod (name.length + 5)
  rw [build_norm_v4 env name addr timeout op p hsock hn ha hp htm]
  simp only [Except.map]
  rw [content_shape]
  rw [sentBuffer_norm _ _ _ _ (by
    simp only [List.length_append, List.length_cons, List.length_nil,
      List.length_replicate, u16le_length]
    omega)]
  rw [(show (44 + p) % 2 ^ 32 = 44 + p by omega)]
  rw [u32le_small _ (by omega)]
  rw [(show u16le (NLM_F_REQUEST ||| NLM_F_REPLACE) = [1, 1] from by decide)]
  rw [(show ([AF_INET % 256, NFNETLINK_V0] : List Nat) = [2, 0] from by decide)]
  rw [(show u16le (htons 0) = [0, 0] from by decide)]
  rw [(show u16le (4 + 1) = [5, 0] from by decide)]
  rw [(show u16le IPSET_ATTR_PROTOCOL = [1, 0] from by decide)]
  rw [(show ([IPSET_PROTOCOL] : List Nat) = [6] from by decide)]
  rw [(show u16le IPSET_ATTR_SETNAME = [2, 0] from by decide)]
  rw [(show u16le (NLA_F_NESTED ||| IPSET_ATTR_DATA) = [7, 128] from by decide)]
  rw [(show u16le (NLA_F_NESTED ||| IPSET_ATTR_IP) = [1, 128] from by decide)]
  rw [(show u16le (4 + 4) = [8, 0] from by decide)]
  rw [(show u16le (IPSET_ATTR_IPADDR_IPV4 ||| NLA_F_NET_BYTEORDER) = [1, 64]
    from by decide)]
  simp only [u16le, List.cons_append, List.nil_append, List.append_assoc]
  exact congrArg Except.ok (decode_content_notmo
    ((op ||| NFNL_SUBSYS_IPSET <<< 8) % 2 ^ 16) 16385 p 4 (44 + p)
    ((op ||| NFNL_SUBSYS_IPSET <<< 8) % 256)
    ((op ||| NFNL_SUBSYS_IPSET <<< 8) / 256 % 256) 2
    ((4 + (name.length + 1)) % 256) ((4 + (name.length + 1)) / 256 % 256)
    (p - (name.length + 5)) 16 12 8 1 64 name addr
    hn ha (by decide) (by decide) hp (by omega) (by omega) (by omega) rfl
    (by decide) (by decide) (by decide) (by decide))


set_option maxHeartbeats 1000000 in
theorem decode_build_v4_tmo (env : Env) (name addr : List Nat) (timeout op p : Nat)
    (hsock : env.socket_ok = true)
    (hn : name.length < 32)
    (ha : addr.length = 4)
    (hp : p = NETLINK_ALIGN (name.length + 5))
    (htm : 0 < timeout ∧ env.timeout_enable = true) :
    (ipset_operate_build env name addr timeout op).map
      (fun s => decodeMsg (sentBuffer s)) =
      .ok (some ⟨(op ||| NFNL_SUBSYS_IPSET <<< 8) % 2 ^ 16, 2, name,
        16385, addr, some (timeout % 2 ^ 32)⟩) := by
  have hge := align_ge (name.length + 5)
  have hlt := align_lt (name.length + 5)
  have hmod := align_mod (name.length + 5)
  rw [build_norm_v4_tmo env name addr timeout op p hsock hn ha hp htm]
  simp only [Except.map]
  rw [content_shape8]
  rw [sentBuffer_norm _ _ _ _ (by
    simp only [List.length_append, List.length_cons, List.length_nil,
      List.length_replicate, u16le_length, u64le_length]
    omega)]
  rw [(show (56 + p) % 2 ^ 32 = 56 + p by omega)]
  rw [u32le_small _ (by omega)]
  rw [(show u16le (NLM_F_REQUEST ||| NLM_F_REPLACE) = [1, 1] from by decide)]
  rw [(show ([AF_INET % 256, NFNETLINK_V0] : List Nat) = [2, 0] from by decide)]
  rw [(show u16le (htons 0) = [0, 0] from by decide)]
  rw [(show u16le (4 + 1) = [5, 0] from by decide)]
  rw [(show u16le IPSET_ATTR_PROTOCOL = [1, 0] from by decide)]
  rw [(show ([IPSET_PROTOCOL] : List Nat) = [6] from by decide)]
  rw [(show u16le IPSET_ATTR_SETNAME = [2, 0] from by decide)]
  rw [(show u16le (NLA_F_NESTED ||| IPSET_ATTR_DATA) = [7, 128] from by decide)]
  rw [(show u16le (NLA_F_NESTED ||| IPSET_ATTR_IP) = [1, 128] from by decide)]
  rw [(show u16le (4 + 4) = [8, 0] from by decide)]
  rw [(show u16le (IPSET_ATTR_IPADDR_IPV4 ||| NLA_F_NET_BYTEORDER) = [1, 64]
    from by decide)]
  rw [(show u16le (4 + 8) = [12, 0] from by decide)]
  rw [(show u16le (IPSET_ATTR_TIMEOUT ||| NLA_F_NET_BYTEORDER) = [6, 64]
    from by decide)]
  rw [← readBE32_u64le_htonl timeout]
  simp only [u16le, List.cons_append, List.nil_append, List.append_assoc]
  exact congrArg Except.ok (decode_content_tmo
    ((op ||| NFNL_SUBSYS_IPSET <<< 8) % 2 ^ 16) 16385 p 4 (56 + p)
    ((op ||| NFNL_SUBSYS_IPSET <<< 8) % 256)
    ((op ||| NFNL_SUBSYS_IPSET <<< 8) / 256 % 256) 2
    ((4 + (name.length + 1)) % 256) ((4 + (name.length + 1)) / 256 % 256)
    (p - (name.length + 5)) 28 12 8 1 64 name addr (u64le (htonl timeout))
    hn ha (by decide) (by decide) hp (by omega) (by omega) (by omega) rfl
    (by decide) (by decide) (by decide) (by decide) (u64le_length _))

set_option maxHeartbeats 1000000 in
theorem decode_build_v6 (env : Env) (name addr : List Nat) (timeout op p : Nat)
    (hsock : env.socket_ok = true)
    (hn : name.length < 32)
    (ha : addr.length = 16)
    (hp : p = NETLINK_ALIGN (name.length + 5))
    (htm : ¬(0 < timeout ∧ env.timeout_enable = true)) :
    (ipset_operate_build env name addr timeout op).map
      (fun s => decodeMsg (sentBuffer s)) =
      .ok (some ⟨(op ||| NFNL_SUBSYS_IPSET <<< 8) % 2 ^ 16, 10, name,
        16386, addr, none⟩) := by
  have hge := align_ge (name.length + 5)
  have hlt := align_lt (name.length + 5)
  have hmod := align_mod (name.length + 5)
  rw [build_norm_v6 env name addr timeout op p hsock hn ha hp htm]
  simp only [Except.map]
  rw [content_shape]
  rw [sentBuffer_norm _ _ _ _ (by
    simp only [List.length_append, List.length_cons, List.length_nil,
      List.length_replicate, u16le_length]
    omega)]
  rw [(show (56 + p) % 2 ^ 32 = 56 + p by omega)]
  rw [u32le_small _ (by omega)]
  rw [(show u16le (NLM_F_REQUEST ||| NLM_F_REPLACE) = [1, 1] from by decide)]
  rw [(show ([AF_INET6 % 256, NFNETLINK_V0] : List Nat) = [10, 0] from by decide)]
  rw [(show u16le (htons 0) = [0, 0] from by decide)]
  rw [(show u16le (4 + 1) = [5, 0] from by decide)]
  rw [(show u16le IPSET_ATTR_PROTOCOL = [1, 0] from by decide)]
  rw [(show ([IPSET_PROTOCOL] : List Nat) = [6] from by decide)]
  rw [(show u16le IPSET_ATTR_SETNAME = [2, 0] from by decide)]
  rw [(show u16le (NLA_F_NESTED ||| IPSET_ATTR_DATA) = [7, 128] from by decide)]
  rw [(show u16le (NLA_F_NESTED ||| IPSET_ATTR_IP) = [1, 128] from by decide)]
  rw [(show u16le (4 + 16) = [20, 0] from by decide)]
  rw [(show u16le (IPSET_ATTR_IPADDR_IPV6 ||| NLA_F_NET_BYTEORDER) = [2, 64]
    from by decide)]
  simp only [u16le, List.cons_append, List.nil_append, List.append_assoc]
  exact congrArg Except.ok (decode_content_notmo
    ((op ||| NFNL_SUBSYS_IPSET <<< 8) % 2 ^ 16) 16386 p 16 (56 + p)
    ((op ||| NFNL_SUBSYS_IPSET <<< 8) % 256)
    ((op ||| NFNL_SUBSYS_IPSET <<< 8) / 256 % 256) 10
    ((4 + (name.length + 1)) % 256) ((4 + (name.length + 1)) / 256 % 256)
    (p - (name.length + 5)) 28 24 20 2 64 name addr
    hn ha (by decide) (by decide) hp (by omega) (by omega) (by omega) rfl
    (by decide) (by decide) (by decide) (by decide))

set_option maxHeartbeats 1000000 in
theorem decode_build_v6_tmo (env : Env) (name addr : List Nat) (timeout op p : Nat)
    (hsock : env.socket_ok = true)
    (hn : name.length < 32)
    (ha : addr.length = 16)
    (hp : p = NETLINK_ALIGN (name.length + 5))
    (htm : 0 < timeout ∧ env.timeout_enable = true) :
    (ipset_operate_build env name addr timeout op).map
      (fun s => decodeMsg (sentBuffer s)) =
      .ok (some ⟨(op ||| NFNL_SUBSYS_IPSET <<< 8) % 2 ^ 16, 10, name,
        16386, addr, some (timeout % 2 ^ 32)⟩) := by
  have hge := align_ge (name.length + 5)
  have hlt := align_lt (name.length + 5)
  have hmod := align_mod (name.length + 5)
  rw [build_norm_v6_tmo env name addr timeout op p hsock hn ha hp htm]
  simp only [Except.map]
  rw [content_shape8]
  rw [sentBuffer_norm _ _ _ _ (by
    simp only [List.length_append, List.length_cons, List.length_nil,
      List.length_replicate, u16le_length, u64le_length]
    omega)]
  rw [(show (68 + p) % 2 ^ 32 = 68 + p by omega)]
  rw [u32le_small _ (by omega)]
  rw [(show u16le (NLM_F_REQUEST ||| NLM_F_REPLACE) = [1, 1] from by decide)]
  rw [(show ([AF_INET6 % 256, NFNETLINK_V0] : List Nat) = [10, 0] from by decide)]
  rw [(show u16le (htons 0) = [0, 0] from by decide)]
  rw [(show u16le (4 + 1) = [5, 0] from by decide)]
  rw [(show u16le IPSET_ATTR_PROTOCOL = [1, 0] from by decide)]
  rw [(show ([IPSET_PROTOCOL] : List Nat) = [6] from by decide)]
  rw [(show u16le IPSET_ATTR_SETNAME = [2, 0] from by decide)]
  rw [(show u16le (NLA_F_NESTED ||| IPSET_ATTR_DATA) = [7, 128] from by decide)]
  rw [(show u16le (NLA_F_NESTED ||| IPSET_ATTR_IP) = [1, 128] from by decide)]
  rw [(show u16le (4 + 16) = [20, 0] from by decide)]
  rw [(show u16le (IPSET_ATTR_IPADDR_IPV6 ||| NLA_F_NET_BYTEORDER) = [2, 64]
    from by decide)]
  rw [(show u16le (4 + 8) = [12, 0] from by decide)]
  rw [(show u16le (IPSET_ATTR_TIMEOUT ||| NLA_F_NET_BYTEORDER) = [6, 64]
    from by decide)]
  rw [← readBE32_u64le_htonl timeout]
  simp only [u16le, List.cons_append, List.nil_append, List.append_assoc]
  exact congrArg Except.ok (decode_content_tmo
    ((op ||| NFNL_SUBSYS_IPSET <<< 8) % 2 ^ 16) 16386 p 16 (68 + p)
    ((op ||| NFNL_SUBSYS_IPSET <<< 8) % 256)
    ((op ||| NFNL_SUBSYS_IPSET <<< 8) / 256 % 256) 10
    ((4 + (name.length + 1)) % 256) ((4 + (name.length + 1)) / 256 % 256)
    (p - (name.length + 5)) 40 24 20 2 64 name addr (u64le (htonl timeout))
    hn ha (by decide) (by decide) hp (by omega) (by omega) (by omega) rfl
    (by decide) (by decide) (by decide) (by decide) (u64le_length _))

/-! ### The three failure paths of the builder -/

theorem build_invalid_addr (env : Env) (name addr : List Nat) (timeout op : Nat)
    (ha : addr.length ≠ 4 ∧ addr.length ≠ 16) :
    ipset_operate_build env name addr timeout op = .error .invalidAddress := by
  simp only [ipset_operate_build, IPV4_ADDR_LEN, IPV6_ADDR_LEN]
  rw [if_pos ha]

theorem build_socket_fail (env : Env) (name addr : List Nat) (timeout op : Nat)
    (ha : addr.length = 4 ∨ addr.length = 16)
    (hsock : env.socket_ok = false) :
    ipset_operate_build env name addr timeout op = .error .socketFailed := by
  simp only [ipset_operate_build, IPV4_ADDR_LEN, IPV6_ADDR_LEN]
  rw [if_neg (by rcases ha with h | h <;> simp [h])]
  rw [if_pos hsock]

theorem build_name_too_long (env : Env) (name addr : List Nat) (timeout op : Nat)
    (ha : addr.length = 4 ∨ addr.length = 16)
    (hsock : env.socket_ok = true)
    (hname : 32 ≤ name.length) :
    ipset_operate_build env name addr timeout op = .error .nameTooLong := by
  simp only [ipset_operate_build, IPV4_ADDR_LEN, IPV6_ADDR_LEN, IPSET_MAXNAMELEN]
  rw [if_neg (by rcases ha with h | h <;> simp [h])]
  rw [if_neg (by simp [hsock])]
  rw [if_pos hname]

/-- A successful build certifies that all three validations passed. -/
theorem build_ok_valid (env : Env) (name addr : List Nat) (timeout op : Nat)
    (s : MsgState)
    (hs : ipset_operate_build env name addr timeout op = .ok s) :
    (addr.length = 4 ∨ addr.length = 16) ∧ env.socket_ok = true ∧
      name.length < 32 := by
  by_cases hA : addr.length = 4 ∨ addr.length = 16
  · by_cases hS : env.socket_ok = true
    · by_cases hN : name.length < 32
      · exact ⟨hA, hS, hN⟩
      · rw [build_name_too_long env name addr timeout op hA hS (by omega)] at hs
        cases hs
    · have hS2 : env.socket_ok = false := by
        cases h : env.socket_ok
        · rfl
        · exact absurd h hS
      rw [build_socket_fail env name addr timeout op hA hS2] at hs
      cases hs
  · rw [build_invalid_addr env name addr timeout op (by
      constructor
      · intro h; exact hA (Or.inl h)
      · intro h; exact hA (Or.inr h))] at hs
    cases hs

/-- Valid inputs always build successfully. -/
theorem build_ok_of_valid (env : Env) (name addr : List Nat) (timeout op : Nat)
    (ha : addr.length = 4 ∨ addr.length = 16)
    (hsock : env.socket_ok = true)
    (hn : name.length < 32) :
    ∃ s, ipset_operate_build env name addr timeout op = .ok s := by
  rcases ha with h4 | h16 <;>
    by_cases htm : 0 < timeout ∧ env.timeout_enable = true
  · exact ⟨_, build_norm_v4_tmo env name addr timeout op _ hsock hn h4 rfl htm⟩
  · exact ⟨_, build_norm_v4 env name addr timeout op _ hsock hn h4 rfl htm⟩
  · exact ⟨_, build_norm_v6_tmo env name addr timeout op _ hsock hn h16 rfl htm⟩
  · exact ⟨_, build_norm_v6 env name addr timeout op _ hsock hn h16 rfl htm⟩

/-! ### Behaviour of the full run on each validation outcome -/

theorem run_validation_error (env : Env) (outcomes : Nat → SendOutcome)
    (fuel : Nat) (name addr : List Nat) (timeout op : Nat) (e : IpsetError)
    (he : ipset_operate_build env name addr timeout op = .error e) :
    ipset_operate_run env outcomes fuel name addr timeout op = (.error e, 0) := by
  unfold ipset_operate_run
  rw [he]

theorem run_ne_nameTooLong (env : Env) (outcomes : Nat → SendOutcome)
    (fuel : Nat) (name addr : List Nat) (timeout op : Nat)
    (hn : name.length < 32) :
    (ipset_operate_run env outcomes fuel name addr timeout op).1 ≠
      .error .nameTooLong := by
  unfold ipset_operate_run
  by_cases hA : addr.length = 4 ∨ addr.length = 16
  · by_cases hS : env.socket_ok = true
    · obtain ⟨s, hs⟩ := build_ok_of_valid env name addr timeout op hA hS hn
      rw [hs]
      simp
    · have hS2 : env.socket_ok = false := by
        cases h : env.socket_ok
        · rfl
        · exact absurd h hS
      rw [build_socket_fail env name addr timeout op hA hS2]
      simp
  · rw [build_invalid_addr env name addr timeout op
      ⟨fun h => hA (Or.inl h), fun h => hA (Or.inr h)⟩]
    simp

/-! ### Step equations of the send loop -/

theorem sendLoop_ok (outcomes : Nat → SendOutcome) (fuel i rc : Nat)
    (h : outcomes i = .ok rc) :
    sendLoop outcomes (fuel + 1) i = (some (rc, 0), 1) := by
  simp [sendLoop, h]

theorem sendLoop_err (outcomes : Nat → SendOutcome) (fuel i e : Nat)
    (h : outcomes i = .err e) :
    sendLoop outcomes (fuel + 1) i =
      ((sendLoop outcomes fuel (i + 1)).1.map
        (fun q => (q.1, (if isTransient e then retrySleepNs else 0) + q.2)),
       (sendLoop outcomes fuel (i + 1)).2 + 1) := by
  simp [sendLoop, h]

/-- Under a permanently-`EAGAIN` socket the loop never exits: no fuel
suffices. -/
theorem sendLoop_allEAGAIN_none (fuel i : Nat) :
    (sendLoop (fun _ => SendOutcome.err EAGAIN) fuel i).1 = none := by
  induction fuel generalizing i with
  | zero => rfl
  | succ n ih => simp [sendLoop, ih]

/-! ### Reading a u16 at a symbolic offset -/

theorem getD_at (A : List Nat) (b : Nat) (R : List Nat) (i : Nat)
    (h : i = A.length) :
    (A ++ b :: R).getD i 0 = b := by
  subst h
  rw [List.getD_eq_getElem?_getD, List.getElem?_append_right (Nat.le_refl _)]
  simp

theorem readU16_at (A : List Nat) (b0 b1 : Nat) (R : List Nat) (i : Nat)
    (h : i = A.length) :
    readU16 (A ++ b0 :: b1 :: R) i = b0 + 256 * b1 := by
  unfold readU16
  rw [getD_at A b0 (b1 :: R) i h]
  have h2 : A ++ b0 :: b1 :: R = (A ++ [b0]) ++ b1 :: R := by simp
  rw [h2, getD_at (A ++ [b0]) b1 R (i + 1) (by simp [h])]

/-- The u16 read at the start of the seventh segment of a
seven-segment byte stream. -/
theorem readU16_after6 (i : Nat) (H A1 X2 X3 X4 X5 X6 T : List Nat)
    (b0 b1 : Nat)
    (hi : i = H.length + A1.length + X2.length + X3.length + X4.length +
      X5.length + X6.length) :
    readU16 (H ++ (A1 ++ (X2 ++ (X3 ++ (X4 ++ (X5 ++ (X6 ++ (b0 :: b1 :: T)))))))) i =
      b0 + 256 * b1 := by
  have hre : H ++ (A1 ++ (X2 ++ (X3 ++ (X4 ++ (X5 ++ (X6 ++ (b0 :: b1 :: T))))))) =
      (H ++ A1 ++ X2 ++ X3 ++ X4 ++ X5 ++ X6) ++ (b0 :: b1 :: T) := by simp
  rw [hre]
  exact readU16_at _ b0 b1 T i (by simp only [List.length_append]; omega)

/-- The u16 read at the start of the eighth segment of an
eight-segment byte stream. -/
theorem readU16_after7 (i : Nat) (H A1 X2 X3 X4 X5 X6 X7 T : List Nat)
    (b0 b1 : Nat)
    (hi : i = H.length + A1.length + X2.length + X3.length + X4.length +
      X5.length + X6.length + X7.length) :
    readU16 (H ++ (A1 ++ (X2 ++ (X3 ++ (X4 ++ (X5 ++ (X6 ++ (X7 ++
      (b0 :: b1 :: T))))))))) i = b0 + 256 * b1 := by
  have hre : H ++ (A1 ++ (X2 ++ (X3 ++ (X4 ++ (X5 ++ (X6 ++ (X7 ++
        (b0 :: b1 :: T)))))))) =
      (H ++ A1 ++ X2 ++ X3 ++ X4 ++ X5 ++ X6 ++ X7) ++ (b0 :: b1 :: T) := by simp
  rw [hre]
  exact readU16_at _ b0 b1 T i (by simp only [List.length_append]; omega)

/-! ### The transmitted byte stream of every successful build, with its
segment structure preserved -/

theorem sentBytes_v4 (env : Env) (name addr : List Nat) (timeout op p : Nat)
    (hsock : env.socket_ok = true)
    (hn : name.length < 32)
    (ha : addr.length = 4)
    (hp : p = NETLINK_ALIGN (name.length + 5))
    (htm : ¬(0 < timeout ∧ env.timeout_enable = true)) :
    (ipset_operate_build env name addr timeout op).map sentBuffer =
      .ok ([44 + p, 0, 0, 0] ++
        ((u16le (op ||| NFNL_SUBSYS_IPSET <<< 8) ++
          u16le (NLM_F_REQUEST ||| NLM_F_REPLACE)) ++
         ((List.replicate 8 0 ++ ([AF_INET % 256, NFNETLINK_V0] ++ u16le (htons 0))) ++
          ((u16le (4 + 1) ++ u16le IPSET_ATTR_PROTOCOL ++
            ([IPSET_PROTOCOL] ++ List.replicate 3 0)) ++
           ((u16le (4 + (name.length + 1)) ++ u16le IPSET_ATTR_SETNAME ++
             (name ++ [0] ++ List.replicate (p - (name.length + 5)) 0)) ++
            ((16 :: 0 :: u16le (NLA_F_NESTED ||| IPSET_ATTR_DATA)) ++
             ((12 :: 0 :: u16le (NLA_F_NESTED ||| IPSET_ATTR_IP)) ++
              (u16le (4 + 4) ++
                u16le (IPSET_ATTR_IPADDR_IPV4 ||| NLA_F_NET_BYTEORDER) ++
                addr)))))))) := by
  have hge := align_ge (name.length + 5)
  have hlt := align_lt (name.length + 5)
  rw [build_norm_v4 env name addr timeout op p hsock hn ha hp htm]
  simp only [Except.map]
  rw [content_shape]
  rw [sentBuffer_norm _ _ _ _ (by
    simp only [List.length_append, List.length_cons, List.length_nil,
      List.length_replicate, u16le_length]
    omega)]
  rw [(show (44 + p) % 2 ^ 32 = 44 + p by omega)]
  rw [u32le_small _ (by omega)]

theorem sentBytes_v4_tmo (env : Env) (name addr : List Nat) (timeout op p : Nat)
    (hsock : env.socket_ok = true)
    (hn : name.length < 32)
    (ha : addr.length = 4)
    (hp : p = NETLINK_ALIGN (name.length + 5))
    (htm : 0 < timeout ∧ env.timeout_enable = true) :
    (ipset_operate_build env name addr timeout op).map sentBuffer =
      .ok ([56 + p, 0, 0, 0] ++
        ((u16le (op ||| NFNL_SUBSYS_IPSET <<< 8) ++
          u16le (NLM_F_REQUEST ||| NLM_F_REPLACE)) ++
         ((List.replicate 8 0 ++ ([AF_INET % 256, NFNETLINK_V0] ++ u16le (htons 0))) ++
          ((u16le (4 + 1) ++ u16le IPSET_ATTR_PROTOCOL ++
            ([IPSET_PROTOCOL] ++ List.replicate 3 0)) ++
           ((u16le (4 + (name.length + 1)) ++ u16le IPSET_ATTR_SETNAME ++
             (name ++ [0] ++ List.replicate (p - (name.length + 5)) 0)) ++
            ((28 :: 0 :: u16le (NLA_F_NESTED ||| IPSET_ATTR_DATA)) ++
             ((12 :: 0 :: u16le (NLA_F_NESTED ||| IPSET_ATTR_IP)) ++
              ((u16le (4 + 4) ++
                u16le (IPSET_ATTR_IPADDR_IPV4 ||| NLA_F_NET_BYTEORDER) ++
                addr) ++
               (u16le (4 + 8) ++
                u16le (IPSET_ATTR_TIMEOUT ||| NLA_F_NET_BYTEORDER) ++
                u64le (htonl timeout)))))))))) := by
  have hge := align_ge (name.length + 5)
  have hlt := align_lt (name.length + 5)
  rw [build_norm_v4_tmo env name addr timeout op p hsock hn ha hp htm]
  simp only [Except.map]
  rw [content_shape8]
  rw [sentBuffer_norm _ _ _ _ (by
    simp only [List.length_append, List.length_cons, List.length_nil,
      List.length_replicate, u16le_length, u64le_length]
    omega)]
  rw [(show (56 + p) % 2 ^ 32 = 56 + p by omega)]
  rw [u32le_small _ (by omega)]

theorem sentBytes_v6 (env : Env) (name addr : List Nat) (timeout op p : Nat)
    (hsock : env.socket_ok = true)
    (hn : name.length < 32)
    (ha : addr.length = 16)
    (hp : p = NETLINK_ALIGN (name.length + 5))
    (htm : ¬(0 < timeout ∧ env.timeout_enable = true)) :
    (ipset_operate_build env name addr timeout op).map sentBuffer =
      .ok ([56 + p, 0, 0, 0] ++
        ((u16le (op ||| NFNL_SUBSYS_IPSET <<< 8) ++
          u16le (NLM_F_REQUEST ||| NLM_F_REPLACE)) ++
         ((List.replicate 8 0 ++ ([AF_INET6 % 256, NFNETLINK_V0] ++ u16le (htons 0))) ++
          ((u16le (4 + 1) ++ u16le IPSET_ATTR_PROTOCOL ++
            ([IPSET_PROTOCOL] ++ List.replicate 3 0)) ++
           ((u16le (4 + (name.length + 1)) ++ u16le IPSET_ATTR_SETNAME ++
             (name ++ [0] ++ List.replicate (p - (name.length + 5)) 0)) ++
            ((28 :: 0 :: u16le (NLA_F_NESTED ||| IPSET_ATTR_DATA)) ++
             ((24 :: 0 :: u16le (NLA_F_NESTED ||| IPSET_ATTR_IP)) ++
              (u16le (4 + 16) ++
                u16le (IPSET_ATTR_IPADDR_IPV6 ||| NLA_F_NET_BYTEORDER) ++
                addr)))))))) := by
  have hge := align_ge (name.length + 5)
  have hlt := align_lt (name.length + 5)
  rw [build_norm_v6 env name addr timeout op p hsock hn ha hp htm]
  simp only [Except.map]
  rw [content_shape]
  rw [sentBuffer_norm _ _ _ _ (by
    simp only [List.length_append, List.length_cons, List.length_nil,
      List.length_replicate, u16le_length]
    omega)]
  rw [(show (56 + p) % 2 ^ 32 = 56 + p by omega)]
  rw [u32le_small _ (by omega)]

theorem sentBytes_v6_tmo (env : Env) (name addr : List Nat) (timeout op p : Nat)
    (hsock : env.socket_ok = true)
    (hn : name.length < 32)
    (ha : addr.length = 16)
    (hp : p = NETLINK_ALIGN (name.length + 5))
    (htm : 0 < timeout ∧ env.timeout_enable = true) :
    (ipset_operate_build env name addr timeout op).map sentBuffer =
      .ok ([68 + p, 0, 0, 0] ++
        ((u16le (op ||| NFNL_SUBSYS_IPSET <<< 8) ++
          u16le (NLM_F_REQUEST ||| NLM_F_REPLACE)) ++
         ((List.replicate 8 0 ++ ([AF_INET6 % 256, NFNETLINK_V0] ++ u16le (htons 0))) ++
          ((u16le (4 + 1) ++ u16le IPSET_ATTR_PROTOCOL ++
            ([IPSET_PROTOCOL] ++ List.replicate 3 0)) ++
           ((u16le (4 + (name.length + 1)) ++ u16le IPSET_ATTR_SETNAME ++
             (name ++ [0] ++ List.replicate (p - (name.length + 5)) 0)) ++
            ((40 :: 0 :: u16le (NLA_F_NESTED ||| IPSET_ATTR_DATA)) ++
             ((24 :: 0 :: u16le (NLA_F_NESTED ||| IPSET_ATTR_IP)) ++
              ((u16le (4 + 16) ++
                u16le (IPSET_ATTR_IPADDR_IPV6 ||| NLA_F_NET_BYTEORDER) ++
                addr) ++
               (u16le (4 + 8) ++
                u16le (IPSET_ATTR_TIMEOUT ||| NLA_F_NET_BYTEORDER) ++
                u64le (htonl timeout)))))))))) := by
  have hge := align_ge (name.length + 5)
  have hlt := align_lt (name.length + 5)
  rw [build_norm_v6_tmo env name addr timeout op p hsock hn ha hp htm]
  simp only [Except.map]
  rw [content_shape8]
  rw [sentBuffer_norm _ _ _ _ (by
    simp only [List.length_append, List.length_cons, List.length_nil,
      List.length_replicate, u16le_length, u64le_length]
    omega)]
  rw [(show (68 + p) % 2 ^ 32 = 68 + p by omega)]
  rw [u32le_small _ (by omega)]

/-- Overwriting exactly the two message-type bytes at offset 4. -/
theorem writeBytes4_two (b0 b1 x y : Nat) (rest : List Nat) :
    writeBytes (0 :: 0 :: 0 :: 0 :: b0 :: b1 :: rest) 4 [x, y] =
      0 :: 0 :: 0 :: 0 :: x :: y :: rest := by
  unfold writeBytes
  rfl

/-! ### Claims -/

/-- C4: for every set name of fewer than 32 bytes, neither `ipset_add`
nor `ipset_del` returns `NameTooLong` (whatever the address and socket
state); for every set name of at least 32 bytes, both return
`NameTooLong` whenever the earlier checks pass (valid address length
and a working socket — `_ipset_operate` tests the address and the
socket before the name). -/
theorem c4_name_length_validation (env : Env) (outcomes : Nat → SendOutcome)
    (fuel : Nat) (name addr : List Nat) (timeout : Nat) :
    (name.length < 32 →
      (ipset_add env outcomes fuel name addr timeout).1 ≠ .error .nameTooLong ∧
      (ipset_del env outcomes fuel name addr).1 ≠ .error .nameTooLong) ∧
    (32 ≤ name.length → env.socket_ok = true →
      (addr.length = 4 ∨ addr.length = 16) →
      (ipset_add env outcomes fuel name addr timeout).1 = .error .nameTooLong ∧
      (ipset_del env outcomes fuel name addr).1 = .error .nameTooLong) := by
  constructor
  · intro hn
    exact ⟨run_ne_nameTooLong env outcomes fuel name addr timeout IPSET_ADD hn,
      run_ne_nameTooLong env outcomes fuel name addr 0 IPSET_DEL hn⟩
  · intro hN hS hA
    constructor
    · unfold ipset_add
      rw [run_validation_error env outcomes fuel name addr timeout IPSET_ADD
        .nameTooLong (build_name_too_long env name addr timeout IPSET_ADD hA hS hN)]
    · unfold ipset_del
      rw [run_validation_error env outcomes fuel name addr 0 IPSET_DEL
        .nameTooLong (build_name_too_long env name addr 0 IPSET_DEL hA hS hN)]

theorem c4_name_length_validation_witness :
    ((ipset_add ⟨true, true⟩ (fun _ => SendOutcome.ok 0) 1
        (List.replicate 31 97) [192, 168, 1, 1] 0).1 ≠ .error .nameTooLong ∧
      (ipset_del ⟨true, true⟩ (fun _ => SendOutcome.ok 0) 1
        (List.replicate 31 97) [192, 168, 1, 1]).1 ≠ .error .nameTooLong) ∧
    ((ipset_add ⟨true, true⟩ (fun _ => SendOutcome.ok 0) 1
        (List.replicate 33 97) [192, 168, 1, 1] 0).1 = .error .nameTooLong ∧
      (ipset_del ⟨true, true⟩ (fun _ => SendOutcome.ok 0) 1
        (List.replicate 33 97) [192, 168, 1, 1]).1 = .error .nameTooLong) :=
  ⟨(c4_name_length_validation ⟨true, true⟩ (fun _ => SendOutcome.ok 0) 1
      (List.replicate 31 97) [192, 168, 1, 1] 0).1 (by decide),
   (c4_name_length_validation ⟨true, true⟩ (fun _ => SendOutcome.ok 0) 1
      (List.replicate 33 97) [192, 168, 1, 1] 0).2 (by decide) rfl (Or.inl rfl)⟩

/-- C8: a validation failure is returned before any I/O: with an
address length that is neither 4 nor 16 both entry points return
`InvalidAddress` with zero `sendto` calls, and with a working socket, a
valid address and a set name of at least 32 bytes both return
`NameTooLong` with zero `sendto` calls (so zero bytes ever reach a
socket; the second component of the result counts the `sendto`
calls). -/
theorem c8_validation_before_io (env : Env) (outcomes : Nat → SendOutcome)
    (fuel : Nat) (name addr : List Nat) (timeout : Nat) :
    ((addr.length ≠ 4 ∧ addr.length ≠ 16) →
      ipset_add env outcomes fuel name addr timeout = (.error .invalidAddress, 0) ∧
      ipset_del env outcomes fuel name addr = (.error .invalidAddress, 0)) ∧
    (env.socket_ok = true → (addr.length = 4 ∨ addr.length = 16) →
      32 ≤ name.length →
      ipset_add env outcomes fuel name addr timeout = (.error .nameTooLong, 0) ∧
      ipset_del env outcomes fuel name addr = (.error .nameTooLong, 0)) := by
  constructor
  · intro hA
    exact ⟨run_validation_error env outcomes fuel name addr timeout IPSET_ADD
        .invalidAddress (build_invalid_addr env name addr timeout IPSET_ADD hA),
      run_validation_error env outcomes fuel name addr 0 IPSET_DEL
        .invalidAddress (build_invalid_addr env name addr 0 IPSET_DEL hA)⟩
  · intro hS hA hN
    exact ⟨run_validation_error env outcomes fuel name addr timeout IPSET_ADD
        .nameTooLong (build_name_too_long env name addr timeout IPSET_ADD hA hS hN),
      run_validation_error env outcomes fuel name addr 0 IPSET_DEL
        .nameTooLong (build_name_too_long env name addr 0 IPSET_DEL hA hS hN)⟩

theorem c8_validation_before_io_witness :
    (ipset_add ⟨true, true⟩ (fun _ => SendOutcome.ok 0) 9
        [98] [1, 2, 3, 4, 5] 30 = (.error .invalidAddress, 0) ∧
      ipset_del ⟨true, true⟩ (fun _ => SendOutcome.ok 0) 9
        [98] [1, 2, 3, 4, 5] = (.error .invalidAddress, 0)) ∧
    (ipset_add ⟨true, true⟩ (fun _ => SendOutcome.ok 0) 9
        (List.replicate 33 99) [192, 168, 1, 1] 30 = (.error .nameTooLong, 0) ∧
      ipset_del ⟨true, true⟩ (fun _ => SendOutcome.ok 0) 9
        (List.replicate 33 99) [192, 168, 1, 1] = (.error .nameTooLong, 0)) :=
  ⟨(c8_validation_before_io ⟨true, true⟩ (fun _ => SendOutcome.ok 0) 9
      [98] [1, 2, 3, 4, 5] 30).1 (by decide),
   (c8_validation_before_io ⟨true, true⟩ (fun _ => SendOutcome.ok 0) 9
      (List.replicate 33 99) [192, 168, 1, 1] 30).2 rfl (Or.inl rfl) (by decide)⟩

/-- C9 (corrected): the send loop returns immediately on the first
non-negative `sendto` result, and on a transient failure (`EAGAIN`,
`EWOULDBLOCK`, `EINTR`) it sleeps 10000 ns (`retrySleepNs`, on the
order of 10 microseconds) and retries; but the retry is NOT bounded:
under a permanently-`EAGAIN` socket the loop of util.c lines 328-343
never exits, so no fuel yields a result (third conjunct; the claim's
"the retry on transient failures is bounded" is refuted by
`c9_retry_unbounded`). -/
theorem c9_transport_retry (outcomes : Nat → SendOutcome) (fuel i rc e : Nat) :
    (outcomes i = .ok rc →
      sendLoop outcomes (fuel + 1) i = (some (rc, 0), 1)) ∧
    (outcomes i = .err e → isTransient e = true →
      sendLoop outcomes (fuel + 1) i =
        ((sendLoop outcomes fuel (i + 1)).1.map
          (fun q => (q.1, retrySleepNs + q.2)),
         (sendLoop outcomes fuel (i + 1)).2 + 1)) ∧
    (sendLoop (fun _ => SendOutcome.err EAGAIN) fuel i).1 = none := by
  refine ⟨fun h => sendLoop_ok outcomes fuel i rc h, fun h ht => ?_,
    sendLoop_allEAGAIN_none fuel i⟩
  rw [sendLoop_err outcomes fuel i e h, ht]
  simp

theorem c9_transport_retry_witness :
    sendLoop (fun _ => SendOutcome.ok 72) (4 + 1) 0 = (some (72, 0), 1) ∧
    sendLoop (fun _ => SendOutcome.err EAGAIN) (4 + 1) 0 =
      ((sendLoop (fun _ => SendOutcome.err EAGAIN) 4 1).1.map
        (fun q => (q.1, retrySleepNs + q.2)),
       (sendLoop (fun _ => SendOutcome.err EAGAIN) 4 1).2 + 1) ∧
    (sendLoop (fun _ => SendOutcome.err EAGAIN) 4 0).1 = none :=
  ⟨(c9_transport_retry (fun _ => SendOutcome.ok 72) 4 0 72 0).1 rfl,
   (c9_transport_retry (fun _ => SendOutcome.err EAGAIN) 4 0 0 EAGAIN).2.1
     rfl (by decide),
   (c9_transport_retry (fun _ => SendOutcome.err EAGAIN) 4 0 0 EAGAIN).2.2⟩

/-- C9 counterexample: the retry on transient failures is not bounded —
there is no bound `B` of iterations within which the loop always exits
when every `sendto` fails with `EAGAIN`; the loop body of util.c lines
328-343 has no exit other than a successful send. -/
theorem c9_retry_unbounded : ¬ sendRetryBounded := by
  rintro ⟨B, hB⟩
  exact hB B 0 (Nat.le_refl B) (sendLoop_allEAGAIN_none B 0)

/-- C10: whether the TIMEOUT attribute is emitted does not depend on
the set name: `_ipset_support_timeout` ignores its set-name argument
(first conjunct), and two builds that differ only in the (valid) set
name decode to messages whose TIMEOUT attributes are either both
present or both absent (second conjunct). -/
theorem c10_timeout_presence_name_independent (env : Env)
    (name1 name2 addr : List Nat) (timeout op : Nat)
    (hsock : env.socket_ok = true)
    (hn1 : name1.length < 32) (hn2 : name2.length < 32)
    (ha : addr.length = 4 ∨ addr.length = 16) :
    ipset_support_timeout env name1 = ipset_support_timeout env name2 ∧
    (ipset_operate_build env name1 addr timeout op).map
        (fun s => (decodeMsg (sentBuffer s)).map (fun d => d.timeout.isSome)) =
      (ipset_operate_build env name2 addr timeout op).map
        (fun s => (decodeMsg (sentBuffer s)).map (fun d => d.timeout.isSome)) := by
  have comp : ∀ x : Except IpsetError MsgState,
      x.map (fun s => (decodeMsg (sentBuffer s)).map (fun d => d.timeout.isSome)) =
        (x.map (fun s => decodeMsg (sentBuffer s))).map
          (fun o => o.map (fun d => d.timeout.isSome)) := by
    intro x
    cases x <;> rfl
  refine ⟨rfl, ?_⟩
  rw [comp, comp]
  rcases ha with h4 | h16 <;>
    by_cases htm : 0 < timeout ∧ env.timeout_enable = true
  · rw [decode_build_v4_tmo env name1 addr timeout op _ hsock hn1 h4 rfl htm,
      decode_build_v4_tmo env name2 addr timeout op _ hsock hn2 h4 rfl htm]
    rfl
  · rw [decode_build_v4 env name1 addr timeout op _ hsock hn1 h4 rfl htm,
      decode_build_v4 env name2 addr timeout op _ hsock hn2 h4 rfl htm]
    rfl
  · rw [decode_build_v6_tmo env name1 addr timeout op _ hsock hn1 h16 rfl htm,
      decode_build_v6_tmo env name2 addr timeout op _ hsock hn2 h16 rfl htm]
    rfl
  · rw [decode_build_v6 env name1 addr timeout op _ hsock hn1 h16 rfl htm,
      decode_build_v6 env name2 addr timeout op _ hsock hn2 h16 rfl htm]
    rfl

theorem c10_timeout_presence_name_independent_witness :
    ipset_support_timeout ⟨true, true⟩ [98, 108, 111, 99, 107, 108, 105, 115, 116] =
      ipset_support_timeout ⟨true, true⟩ [120] ∧
    (ipset_operate_build ⟨true, true⟩ [98, 108, 111, 99, 107, 108, 105, 115, 116]
        [192, 168, 1, 1] 30 IPSET_ADD).map
        (fun s => (decodeMsg (sentBuffer s)).map (fun d => d.timeout.isSome)) =
      (ipset_operate_build ⟨true, true⟩ [120] [192, 168, 1, 1] 30 IPSET_ADD).map
        (fun s => (decodeMsg (sentBuffer s)).map (fun d => d.timeout.isSome)) :=
  c10_timeout_presence_name_independent ⟨true, true⟩
    [98, 108, 111, 99, 107, 108, 105, 115, 116] [120] [192, 168, 1, 1] 30
    IPSET_ADD rfl (by decide) (by decide) (Or.inl rfl)

/-- C2: the scenario `ipset_add "blocklist" [192,168,1,1] 0` with per-set
timeouts disabled: total length 20 + 4 + 8 + 12 + 16 = 60, and the TLV walk
of the transmitted bytes shows exactly the four attributes PROTOCOL,
SETNAME ("blocklist" plus NUL and padding), nested DATA, and inside it the
nested IP holding the 8-byte IPv4 address attribute — no TIMEOUT. -/
theorem c2_blocklist_scenario :
    ((ipset_add_build ⟨true, false⟩ [98, 108, 111, 99, 107, 108, 105, 115, 116]
        [192, 168, 1, 1] 0).map
      (fun s => (s.nlmsg_len, (sentBuffer s).length))).toOption =
      some (20 + 4 + 8 + 12 + 16, 60) ∧
    ((ipset_add_build ⟨true, false⟩ [98, 108, 111, 99, 107, 108, 105, 115, 116]
        [192, 168, 1, 1] 0).map
      (fun s => parseTLV (sentBuffer s).length ((sentBuffer s).drop 20))).toOption =
      some (some [(1, [6]),
        (2, [98, 108, 111, 99, 107, 108, 105, 115, 116, 0]),
        (32775, [12, 0, 1, 128, 8, 0, 1, 64, 192, 168, 1, 1])]) ∧
    ((ipset_add_build ⟨true, false⟩ [98, 108, 111, 99, 107, 108, 105, 115, 116]
        [192, 168, 1, 1] 0).map
      (fun s => decodeMsg (sentBuffer s))).toOption =
      some (some ⟨1545, 2, [98, 108, 111, 99, 107, 108, 105, 115, 116], 16385,
        [192, 168, 1, 1], none⟩) ∧
    parseTLV 64 [12, 0, 1, 128, 8, 0, 1, 64, 192, 168, 1, 1] =
      some [(32769, [8, 0, 1, 64, 192, 168, 1, 1])] ∧
    parseTLV 64 [8, 0, 1, 64, 192, 168, 1, 1] =
      some [(16385, [192, 168, 1, 1])] := by
  decide

/-- C3: the claim states the TIMEOUT payload is the 4-byte htonl of the
timeout.  The code passes `sizeof(timeout)` where `timeout` is an
`unsigned long`, so on LP64 the attribute payload is 8 bytes: at the
spec's own scenario (add "blocklist", a 16-byte IPv6 address, timeout
30, timeouts enabled) the TIMEOUT attribute declares length 12 = 4 + 8
(a 4-byte payload would declare 8), and its payload is htonl(30)
zero-extended to the 8 bytes of the unsigned long. -/
theorem c3_timeout_payload_eight_bytes :
    ((ipset_add_build ⟨true, true⟩ [98, 108, 111, 99, 107, 108, 105, 115, 116]
        [32, 1, 13, 184, 0, 0, 0, 0, 0, 0, 0, 0, 0, 0, 0, 1] 30).map
      (fun s =>
        (s.nlmsg_len,
         readU16 (sentBuffer s) 72,
         readU16 (sentBuffer s) 74,
         ((sentBuffer s).drop 76).take 8))).toOption =
      some (84, 12, 16390, [0, 0, 0, 30, 0, 0, 0, 0]) := by
  decide

set_option maxHeartbeats 1000000 in
/-- C1: for every successfully built message, the four-byte total
length field at the start of the transmitted buffer equals the final
`nlmsg_len`, that length is a multiple of 4, every attribute's payload
start offset (its header offset plus the 4-byte header) is 4-byte
aligned relative to the buffer start, and the total length equals the
4-byte-aligned end offset of the last fully-written attribute (its
header offset plus its declared length, as read back from the sent
bytes).  On a failed build both sides are the same error, so the
equation below states the invariant exactly for the successful
builds. -/
theorem c1_length_and_alignment (env : Env) (name addr : List Nat)
    (timeout op : Nat) :
    (ipset_operate_build env name addr timeout op).map
      (fun s =>
        decide (readU32 (sentBuffer s) 0 = s.nlmsg_len) &&
        decide (s.nlmsg_len % 4 = 0) &&
        s.attrs.all (fun off => (off + 4) % 4 == 0) &&
        decide (s.attrs.getLast?.map
          (fun lastOff =>
            NETLINK_ALIGN (lastOff + readU16 (sentBuffer s) lastOff)) =
          some s.nlmsg_len)) =
      (ipset_operate_build env name addr timeout op).map (fun _ => true) := by
  by_cases hA : addr.length = 4 ∨ addr.length = 16
  · by_cases hS : env.socket_ok = true
    · by_cases hN : name.length < 32
      · have hge := align_ge (name.length + 5)
        have hlt := align_lt (name.length + 5)
        have hmod := align_mod (name.length + 5)
        obtain ⟨s, hs⟩ := build_ok_of_valid env name addr timeout op hA hS hN
        rw [hs]
        simp only [Except.map, Except.ok.injEq]
        simp only [Bool.and_eq_true, decide_eq_true_eq, List.all_eq_true,
          beq_iff_eq]
        rcases hA with h4 | h16 <;>
          by_cases htm : 0 < timeout ∧ env.timeout_enable = true
        · -- IPv4, timeout attribute present
          have hnorm := build_norm_v4_tmo env name addr timeout op _ hS hN h4 rfl htm
          have hsent := sentBytes_v4_tmo env name addr timeout op _ hS hN h4 rfl htm
          rw [hs] at hnorm hsent
          have hst := (Except.ok.inj hnorm)
          simp only [Except.map] at hsent
          have hsb := (Except.ok.inj hsent)
          refine ⟨⟨⟨?_, ?_⟩, ?_⟩, ?_⟩
          · rw [hsb, hst]
            simp only [List.cons_append, List.nil_append]
            rw [readU32_cons]
            show 56 + NETLINK_ALIGN (name.length + 5) + 256 * 0 + 2 ^ 16 * (0 + 256 * 0) =
              56 + NETLINK_ALIGN (name.length + 5)
            omega
          · rw [hst]
            show (56 + NETLINK_ALIGN (name.length + 5)) % 4 = 0
            omega
          · intro off hoff
            rw [hst] at hoff
            simp only [List.mem_cons, List.not_mem_nil, or_false] at hoff
            rcases hoff with rfl | rfl | rfl | rfl | rfl | rfl <;> omega
          · rw [hsb, hst]
            dsimp only
            rw [(show List.getLast? [20, 28, 28 + NETLINK_ALIGN (name.length + 5),
              32 + NETLINK_ALIGN (name.length + 5),
              36 + NETLINK_ALIGN (name.length + 5),
              44 + NETLINK_ALIGN (name.length + 5)] =
              some (44 + NETLINK_ALIGN (name.length + 5)) from rfl)]
            rw [Option.map_some']
            rw [(show u16le (4 + 8) ++
                u16le (IPSET_ATTR_TIMEOUT ||| NLA_F_NET_BYTEORDER) ++
                u64le (htonl timeout) =
              12 :: 0 :: 6 :: 64 :: u64le (htonl timeout) from by
              rw [(show u16le (4 + 8) = [12, 0] from by decide),
                (show u16le (IPSET_ATTR_TIMEOUT ||| NLA_F_NET_BYTEORDER) = [6, 64]
                  from by decide)]
              rfl)]
            rw [readU16_after7 _ _ _ _ _ _ _ _ _ _ 12 0 (by
              simp only [List.length_append, List.length_cons, List.length_nil,
                List.length_replicate, u16le_length, h4]
              omega)]
            rw [align_eq_of_mod _ (by omega)]
            simp only [Option.some.injEq]
            omega
        · -- IPv4, no timeout attribute
          have hnorm := build_norm_v4 env name addr timeout op _ hS hN h4 rfl htm
          have hsent := sentBytes_v4 env name addr timeout op _ hS hN h4 rfl htm
          rw [hs] at hnorm hsent
          have hst := (Except.ok.inj hnorm)
          simp only [Except.map] at hsent
          have hsb := (Except.ok.inj hsent)
          refine ⟨⟨⟨?_, ?_⟩, ?_⟩, ?_⟩
          · rw [hsb, hst]
            simp only [List.cons_append, List.nil_append]
            rw [readU32_cons]
            show 44 + NETLINK_ALIGN (name.length + 5) + 256 * 0 +
                2 ^ 16 * (0 + 256 * 0) =
              44 + NETLINK_ALIGN (name.length + 5)
            omega
          · rw [hst]
            show (44 + NETLINK_ALIGN (name.length + 5)) % 4 = 0
            omega
          · intro off hoff
            rw [hst] at hoff
            simp only [List.mem_cons, List.not_mem_nil, or_false] at hoff
            rcases hoff with rfl | rfl | rfl | rfl | rfl <;> omega
          · rw [hsb, hst]
            dsimp only
            rw [(show List.getLast? [20, 28, 28 + NETLINK_ALIGN (name.length + 5),
              32 + NETLINK_ALIGN (name.length + 5),
              36 + NETLINK_ALIGN (name.length + 5)] =
              some (36 + NETLINK_ALIGN (name.length + 5)) from rfl)]
            rw [Option.map_some']
            rw [(show u16le (4 + 4) ++
                u16le (IPSET_ATTR_IPADDR_IPV4 ||| NLA_F_NET_BYTEORDER) ++ addr =
              8 :: 0 :: 1 :: 64 :: addr from by
              rw [(show u16le (4 + 4) = [8, 0] from by decide),
                (show u16le (IPSET_ATTR_IPADDR_IPV4 ||| NLA_F_NET_BYTEORDER) =
                  [1, 64] from by decide)]
              rfl)]
            rw [readU16_after6 _ _ _ _ _ _ _ _ _ 8 0 (by
              simp only [List.length_append, List.length_cons, List.length_nil,
                List.length_replicate, u16le_length]
              omega)]
            rw [align_eq_of_mod _ (by omega)]
            simp only [Option.some.injEq]
            omega
        · -- IPv6, timeout attribute present
          have hnorm := build_norm_v6_tmo env name addr timeout op _ hS hN h16 rfl htm
          have hsent := sentBytes_v6_tmo env name addr timeout op _ hS hN h16 rfl htm
          rw [hs] at hnorm hsent
          have hst := (Except.ok.inj hnorm)
          simp only [Except.map] at hsent
          have hsb := (Except.ok.inj hsent)
          refine ⟨⟨⟨?_, ?_⟩, ?_⟩, ?_⟩
          · rw [hsb, hst]
            simp only [List.cons_append, List.nil_append]
            rw [readU32_cons]
            show 68 + NETLINK_ALIGN (name.length + 5) + 256 * 0 +
                2 ^ 16 * (0 + 256 * 0) =
              68 + NETLINK_ALIGN (name.length + 5)
            omega
          · rw [hst]
            show (68 + NETLINK_ALIGN (name.length + 5)) % 4 = 0
            omega
          · intro off hoff
            rw [hst] at hoff
            simp only [List.mem_cons, List.not_mem_nil, or_false] at hoff
            rcases hoff with rfl | rfl | rfl | rfl | rfl | rfl <;> omega
          · rw [hsb, hst]
            dsimp only
            rw [(show List.getLast? [20, 28, 28 + NETLINK_ALIGN (name.length + 5),
              32 + NETLINK_ALIGN (name.length + 5),
              36 + NETLINK_ALIGN (name.length + 5),
              56 + NETLINK_ALIGN (name.length + 5)] =
              some (56 + NETLINK_ALIGN (name.length + 5)) from rfl)]
            rw [Option.map_some']
            rw [(show u16le (4 + 8) ++
                u16le (IPSET_ATTR_TIMEOUT ||| NLA_F_NET_BYTEORDER) ++
                u64le (htonl timeout) =
              12 :: 0 :: 6 :: 64 :: u64le (htonl timeout) from by
              rw [(show u16le (4 + 8) = [12, 0] from by decide),
                (show u16le (IPSET_ATTR_TIMEOUT ||| NLA_F_NET_BYTEORDER) = [6, 64]
                  from by decide)]
              rfl)]
            rw [readU16_after7 _ _ _ _ _ _ _ _ _ _ 12 0 (by
              simp only [List.length_append, List.length_cons, List.length_nil,
                List.length_replicate, u16le_length, h16]
              omega)]
            rw [align_eq_of_mod _ (by omega)]
            simp only [Option.some.injEq]
            omega
        · -- IPv6, no timeout attribute
          have hnorm := build_norm_v6 env name addr timeout op _ hS hN h16 rfl htm
          have hsent := sentBytes_v6 env name addr timeout op _ hS hN h16 rfl htm
          rw [hs] at hnorm hsent
          have hst := (Except.ok.inj hnorm)
          simp only [Except.map] at hsent
          have hsb := (Except.ok.inj hsent)
          refine ⟨⟨⟨?_, ?_⟩, ?_⟩, ?_⟩
          · rw [hsb, hst]
            simp only [List.cons_append, List.nil_append]
            rw [readU32_cons]
            show 56 + NETLINK_ALIGN (name.length + 5) + 256 * 0 +
                2 ^ 16 * (0 + 256 * 0) =
              56 + NETLINK_ALIGN (name.length + 5)
            omega
          · rw [hst]
            show (56 + NETLINK_ALIGN (name.length + 5)) % 4 = 0
            omega
          · intro off hoff
            rw [hst] at hoff
            simp only [List.mem_cons, List.not_mem_nil, or_false] at hoff
            rcases hoff with rfl | rfl | rfl | rfl | rfl <;> omega
          · rw [hsb, hst]
            dsimp only
            rw [(show List.getLast? [20, 28, 28 + NETLINK_ALIGN (name.length + 5),
              32 + NETLINK_ALIGN (name.length + 5),
              36 + NETLINK_ALIGN (name.length + 5)] =
              some (36 + NETLINK_ALIGN (name.length + 5)) from rfl)]
            rw [Option.map_some']
            rw [(show u16le (4 + 16) ++
                u16le (IPSET_ATTR_IPADDR_IPV6 ||| NLA_F_NET_BYTEORDER) ++ addr =
              20 :: 0 :: 2 :: 64 :: addr from by
              rw [(show u16le (4 + 16) = [20, 0] from by decide),
                (show u16le (IPSET_ATTR_IPADDR_IPV6 ||| NLA_F_NET_BYTEORDER) =
                  [2, 64] from by decide)]
              rfl)]
            rw [readU16_after6 _ _ _ _ _ _ _ _ _ 20 0 (by
              simp only [List.length_append, List.length_cons, List.length_nil,
                List.length_replicate, u16le_length]
              omega)]
            rw [align_eq_of_mod _ (by omega)]
            simp only [Option.some.injEq]
            omega
      · rw [build_name_too_long env name addr timeout op hA hS (by omega)]
        rfl
    · rw [build_socket_fail env name addr timeout op hA (by
        cases h : env.socket_ok
        · rfl
        · exact absurd h hS)]
      rfl
  · rw [build_invalid_addr env name addr timeout op
      ⟨fun h => hA (Or.inl h), fun h => hA (Or.inr h)⟩]
    rfl

/-- C5: the address family is derived solely from the address byte
length: any length other than 4 or 16 fails with `InvalidAddress`; a
4-byte address yields family `AF_INET` and the IPv4 type marker with
the network-byte-order bit; a 16-byte address yields family `AF_INET6`
and the IPv6 marker with the network-byte-order bit, which differs from
the IPv4 marker. -/
theorem c5_family_from_address_length (env : Env) (name addr : List Nat)
    (timeout op : Nat)
    (hsock : env.socket_ok = true) (hn : name.length < 32) :
    ((addr.length ≠ 4 ∧ addr.length ≠ 16) →
      ipset_operate_build env name addr timeout op = .error .invalidAddress) ∧
    (addr.length = 4 →
      (ipset_operate_build env name addr timeout op).map
        (fun s => (decodeMsg (sentBuffer s)).map (fun d => (d.family, d.addr_ty))) =
      .ok (some (AF_INET, IPSET_ATTR_IPADDR_IPV4 ||| NLA_F_NET_BYTEORDER))) ∧
    (addr.length = 16 →
      (ipset_operate_build env name addr timeout op).map
        (fun s => (decodeMsg (sentBuffer s)).map (fun d => (d.family, d.addr_ty))) =
      .ok (some (AF_INET6, IPSET_ATTR_IPADDR_IPV6 ||| NLA_F_NET_BYTEORDER)) ∧
      (IPSET_ATTR_IPADDR_IPV6 ||| NLA_F_NET_BYTEORDER : Nat) ≠
        (IPSET_ATTR_IPADDR_IPV4 ||| NLA_F_NET_BYTEORDER)) := by
  have comp : ∀ x : Except IpsetError MsgState,
      x.map (fun s => (decodeMsg (sentBuffer s)).map (fun d => (d.family, d.addr_ty))) =
        (x.map (fun s => decodeMsg (sentBuffer s))).map
          (fun o => o.map (fun d => (d.family, d.addr_ty))) := by
    intro x
    cases x <;> rfl
  refine ⟨fun hA => build_invalid_addr env name addr timeout op hA,
    fun h4 => ?_, fun h16 => ⟨?_, by decide⟩⟩
  · rw [comp]
    by_cases htm : 0 < timeout ∧ env.timeout_enable = true
    · rw [decode_build_v4_tmo env name addr timeout op _ hsock hn h4 rfl htm]
      rfl
    · rw [decode_build_v4 env name addr timeout op _ hsock hn h4 rfl htm]
      rfl
  · rw [comp]
    by_cases htm : 0 < timeout ∧ env.timeout_enable = true
    · rw [decode_build_v6_tmo env name addr timeout op _ hsock hn h16 rfl htm]
      rfl
    · rw [decode_build_v6 env name addr timeout op _ hsock hn h16 rfl htm]
      rfl

theorem c5_family_from_address_length_witness :
    (ipset_operate_build ⟨true, true⟩ [97] [1, 2, 3, 4, 5] 0 IPSET_ADD =
      .error .invalidAddress) ∧
    ((ipset_operate_build ⟨true, true⟩ [97] [192, 168, 1, 1] 0 IPSET_ADD).map
        (fun s => (decodeMsg (sentBuffer s)).map (fun d => (d.family, d.addr_ty))) =
      .ok (some (AF_INET, IPSET_ATTR_IPADDR_IPV4 ||| NLA_F_NET_BYTEORDER))) ∧
    ((ipset_operate_build ⟨true, true⟩ [97]
        [32, 1, 13, 184, 0, 0, 0, 0, 0, 0, 0, 0, 0, 0, 0, 1] 0 IPSET_ADD).map
        (fun s => (decodeMsg (sentBuffer s)).map (fun d => (d.family, d.addr_ty))) =
      .ok (some (AF_INET6, IPSET_ATTR_IPADDR_IPV6 ||| NLA_F_NET_BYTEORDER))) :=
  ⟨(c5_family_from_address_length ⟨true, true⟩ [97] [1, 2, 3, 4, 5] 0 IPSET_ADD rfl
      (by decide)).1 (by decide),
   (c5_family_from_address_length ⟨true, true⟩ [97] [192, 168, 1, 1] 0 IPSET_ADD rfl
      (by decide)).2.1 rfl,
   ((c5_family_from_address_length ⟨true, true⟩ [97]
      [32, 1, 13, 184, 0, 0, 0, 0, 0, 0, 0, 0, 0, 0, 0, 1] 0 IPSET_ADD rfl
      (by decide)).2.2 rfl).1⟩

/-- C6 (corrected): the round-trip recovers the set name, the address
bytes and the timeout for every timeout BELOW 2^32; the original claim,
quantified over every timeout, fails at `timeout = 2^32` (see the
counterexample): `htonl` truncates the unsigned long to a `uint32_t`,
so the recovered value is `timeout % 2^32`, not `timeout`. -/
theorem c6_roundtrip (env : Env) (name addr : List Nat) (timeout : Nat)
    (hsock : env.socket_ok = true) (hn : name.length < 32)
    (ha : addr.length = 4 ∨ addr.length = 16)
    (htmo : timeout < 2 ^ 32) :
    (ipset_add_build env name addr timeout).map
      (fun s => (decodeMsg (sentBuffer s)).map
        (fun d => (d.setname, d.addr, d.timeout))) =
      .ok (some (name, addr,
        if 0 < timeout ∧ env.timeout_enable = true then some timeout else none)) := by
  have comp : ∀ x : Except IpsetError MsgState,
      x.map (fun s => (decodeMsg (sentBuffer s)).map
          (fun d => (d.setname, d.addr, d.timeout))) =
        (x.map (fun s => decodeMsg (sentBuffer s))).map
          (fun o => o.map (fun d => (d.setname, d.addr, d.timeout))) := by
    intro x
    cases x <;> rfl
  unfold ipset_add_build
  rw [comp]
  rcases ha with h4 | h16 <;>
    by_cases htm : 0 < timeout ∧ env.timeout_enable = true
  · rw [decode_build_v4_tmo env name addr timeout IPSET_ADD _ hsock hn h4 rfl htm,
      if_pos htm, Nat.mod_eq_of_lt htmo]
    rfl
  · rw [decode_build_v4 env name addr timeout IPSET_ADD _ hsock hn h4 rfl htm,
      if_neg htm]
    rfl
  · rw [decode_build_v6_tmo env name addr timeout IPSET_ADD _ hsock hn h16 rfl htm,
      if_pos htm, Nat.mod_eq_of_lt htmo]
    rfl
  · rw [decode_build_v6 env name addr timeout IPSET_ADD _ hsock hn h16 rfl htm,
      if_neg htm]
    rfl

theorem c6_roundtrip_witness :
    (ipset_add_build ⟨true, true⟩ [98, 108, 111, 99, 107, 108, 105, 115, 116]
        [192, 168, 1, 1] 30).map
      (fun s => (decodeMsg (sentBuffer s)).map
        (fun d => (d.setname, d.addr, d.timeout))) =
      .ok (some ([98, 108, 111, 99, 107, 108, 105, 115, 116], [192, 168, 1, 1],
        if 0 < 30 ∧ (⟨true, true⟩ : Env).timeout_enable = true then some 30
        else none)) :=
  c6_roundtrip ⟨true, true⟩ [98, 108, 111, 99, 107, 108, 105, 115, 116]
    [192, 168, 1, 1] 30 rfl (by decide) (Or.inl rfl) (by norm_num)

/-- C6 counterexample: at `timeout = 2^32` (nonzero, timeouts enabled,
valid name and address) the decoded timeout is 0, not the original
value: the round-trip does not recover every timeout unchanged. -/
theorem c6_roundtrip_cex :
    ((ipset_add_build ⟨true, true⟩ [98] [192, 168, 1, 1] (2 ^ 32)).map
      (fun s => (decodeMsg (sentBuffer s)).map (fun d => d.timeout))).toOption =
      some (some (some 0)) ∧ (2 ^ 32 : Nat) ≠ 0 := by
  decide

/-- C7: with a valid name and address, the delete message is exactly the
add message built with timeout 0, with only the two operation-code bytes
at offset 4 overwritten (`IPSET_DEL ||| NFNL_SUBSYS_IPSET <<< 8` in
place of `IPSET_ADD ||| NFNL_SUBSYS_IPSET <<< 8`); and the delete
message never carries a TIMEOUT attribute, whatever the
timeout-enabled flag. -/
theorem c7_del_differs_only_in_opcode (env : Env) (name addr : List Nat)
    (hsock : env.socket_ok = true) (hn : name.length < 32)
    (ha : addr.length = 4 ∨ addr.length = 16) :
    ipset_del_build env name addr =
      (ipset_add_build env name addr 0).map
        (fun sa =>
          { sa with
            buf :=
              writeBytes sa.buf 4
                (u16le (IPSET_DEL ||| NFNL_SUBSYS_IPSET <<< 8)) }) ∧
    (ipset_del_build env name addr).map
      (fun s => (decodeMsg (sentBuffer s)).map (fun d => d.timeout)) =
      .ok (some none) := by
  have htm0 : ¬(0 < 0 ∧ env.timeout_enable = true) := by simp
  have comp : ∀ x : Except IpsetError MsgState,
      x.map (fun s => (decodeMsg (sentBuffer s)).map (fun d => d.timeout)) =
        (x.map (fun s => decodeMsg (sentBuffer s))).map
          (fun o => o.map (fun d => d.timeout)) := by
    intro x
    cases x <;> rfl
  unfold ipset_del_build ipset_add_build
  rcases ha with h4 | h16
  · constructor
    · rw [build_norm_v4 env name addr 0 IPSET_DEL _ hsock hn h4 rfl htm0,
        build_norm_v4 env name addr 0 IPSET_ADD _ hsock hn h4 rfl htm0]
      simp only [Except.map]
      rw [(show u16le (IPSET_ADD ||| NFNL_SUBSYS_IPSET <<< 8) = [9, 6]
          from by decide),
        (show u16le (IPSET_DEL ||| NFNL_SUBSYS_IPSET <<< 8) = [10, 6]
          from by decide),
        (show (List.replicate 4 0 : List Nat) = 0 :: 0 :: 0 :: 0 :: [] from rfl)]
      simp only [List.cons_append, List.nil_append, List.append_assoc]
      rw [writeBytes4_two]
    · rw [comp, decode_build_v4 env name addr 0 IPSET_DEL _ hsock hn h4 rfl htm0]
      rfl
  · constructor
    · rw [build_norm_v6 env name addr 0 IPSET_DEL _ hsock hn h16 rfl htm0,
        build_norm_v6 env name addr 0 IPSET_ADD _ hsock hn h16 rfl htm0]
      simp only [Except.map]
      rw [(show u16le (IPSET_ADD ||| NFNL_SUBSYS_IPSET <<< 8) = [9, 6]
          from by decide),
        (show u16le (IPSET_DEL ||| NFNL_SUBSYS_IPSET <<< 8) = [10, 6]
          from by decide),
        (show (List.replicate 4 0 : List Nat) = 0 :: 0 :: 0 :: 0 :: [] from rfl)]
      simp only [List.cons_append, List.nil_append, List.append_assoc]
      rw [writeBytes4_two]
    · rw [comp, decode_build_v6 env name addr 0 IPSET_DEL _ hsock hn h16 rfl htm0]
      rfl

theorem c7_del_differs_only_in_opcode_witness :
    ipset_del_build ⟨true, true⟩ [98] [192, 168, 1, 1] =
      (ipset_add_build ⟨true, true⟩ [98] [192, 168, 1, 1] 0).map
        (fun sa =>
          { sa with
            buf :=
              writeBytes sa.buf 4
                (u16le (IPSET_DEL ||| NFNL_SUBSYS_IPSET <<< 8)) }) ∧
    (ipset_del_build ⟨true, true⟩ [98] [192, 168, 1, 1]).map
      (fun s => (decodeMsg (sentBuffer s)).map (fun d => d.timeout)) =
      .ok (some none) :=
  c7_del_differs_only_in_opcode ⟨true, true⟩ [98] [192, 168, 1, 1] rfl (by decide)
    (Or.inl rfl)

end SmartDNS
